import Mathlib

/-!
# simple-blog: the partial-update query compiler, the stores, the repositories, the handlers

A shallow embedding of `internal/db/pgdb`, `internal/models`, the three stores
(`userstore`, `poststore`, `commentstore`), the three repositories
(`userrepo`, `postrepo`, `commentrepo`) and the handlers of
`internal/blog/handlers`, with a model of the database server for one table.

Conventions of the embedding.

* A Go `string` is a Lean `String` (valid UTF-8, which is what JSON binding
  produces); on such strings the `json.Marshal` / `json.Unmarshal` round trip of
  `structToMap` is the identity.
* A Go `int` is an `Int`; the machine range is `-2^63 ≤ n < 2^63`.
* A `float64` that holds an integer is represented by that integer. These are the
  only numbers the round trip produces, since every numeric field of the models
  is an `int`.
* A function returning `(T, error)` returns a pair whose second component is
  `none` for a nil error.
* `range` over a Go map visits the entries in an unspecified order: the order is
  a parameter (`RangeOrder`) and the theorems hold for every choice of it.
* Logging and tracing calls have no effect on results and are left out, except
  where evaluating their argument dereferences a pointer.
* A handler is a function of the two parts of the request it reads (the path
  parameter and the outcome of `c.BindJSON`) and of its repository; what it does
  is the list of responses it writes through the `gin.Context`.
-/

namespace SimpleBlog

/-! ## Go errors -/

/-- A Go `error`. `sentinel` is a package-level `errors.New` variable, identified
by its name; `leaf` is any other error without `Unwrap`; `wrap` is the result of
`fmt.Errorf` with one `%w` operand, whose `Unwrap` returns that operand. -/
inductive GoError where
  | sentinel (name : String) (msg : String)
  | leaf (msg : String)
  | wrap (msg : String) (inner : GoError)
  deriving DecidableEq, Repr

/-- The method `Error()`. -/
def GoError.Error : GoError → String
  | .sentinel _ msg => msg
  | .leaf msg => msg
  | .wrap msg _ => msg

/-- The function `errors.Is`: walks the `Unwrap` chain of `err` looking for `target`. -/
def errorsIs : GoError → GoError → Bool
  | .sentinel name msg, target => decide (GoError.sentinel name msg = target)
  | .leaf msg, target => decide (GoError.leaf msg = target)
  | .wrap msg inner, target =>
    decide (GoError.wrap msg inner = target) || errorsIs inner target

/-- The variable `pgdb.ErrNotFound`. -/
def ErrNotFound : GoError := .sentinel "pgdb.ErrNotFound" "not found"

/-- The variable `pgdb.ErrMultipleFound`. -/
def ErrMultipleFound : GoError := .sentinel "pgdb.ErrMultipleFound" "multiple found"

/-! ## Values of the JSON round trip -/

/-- The dynamic values an `interface{}` holds after `json.Unmarshal` of a flat
object: `nil`, `bool`, `float64` (integer-valued, see the header) and `string`. -/
inductive Value where
  | nil
  | bool (b : Bool)
  | float64 (x : Int)
  | string (s : String)
  deriving DecidableEq, Repr

/-- A `map[string]interface{}` as a list of entries with distinct keys. -/
abbrev JMap := List (String × Value)

/-- The index expression `m[k]`: the nil interface when the key is absent. -/
def JMap.get (m : JMap) (k : String) : Value := (m.lookup k).getD Value.nil

/-- The order in which a `range` loop yields the entries of a map: some
rearrangement of the entries. -/
structure RangeOrder where
  visit : JMap → JMap
  perm : ∀ m : JMap, (visit m).Perm m

/-- The order in which the entries were inserted. -/
def RangeOrder.declared : RangeOrder := ⟨fun m => m, fun m => List.Perm.refl m⟩

/-- The reverse of the insertion order. -/
def RangeOrder.reversed : RangeOrder := ⟨List.reverse, fun m => List.reverse_perm m⟩

/-! ## float64 conversion of integers -/

/-- Number of low-order bits of `n` that do not fit a 53-bit significand. -/
def excessBits : Nat → Nat → Nat
  | 0, _ => 0
  | fuel + 1, n => if n < 2 ^ 53 then 0 else excessBits fuel (n / 2) + 1

/-- Rounds a natural number below `2^64` to the nearest `float64`, ties to even. -/
def roundNearestEven (n : Nat) : Nat :=
  let sh := excessBits 64 n
  let q := n / 2 ^ sh
  let r := n % 2 ^ sh
  let q1 := if 2 ^ sh < 2 * r ∨ (2 * r = 2 ^ sh ∧ q % 2 = 1) then q + 1 else q
  q1 * 2 ^ sh

/-- The `float64` that `json.Unmarshal` stores for the decimal text of the Go
`int` `n` (`strconv.ParseFloat`, correctly rounded). -/
def float64OfInt : Int → Int
  | .ofNat m => Int.ofNat (roundNearestEven m)
  | .negSucc m => - Int.ofNat (roundNearestEven (m + 1))

/-! ## Records -/

/-- A `time.Time`, seen through `MarshalJSON`: either its RFC 3339 text, or a
time whose year is outside `0..9999`, for which `MarshalJSON` fails. -/
inductive Time where
  | instant (rfc3339 : String)
  | outOfRange
  deriving DecidableEq, Repr

/-- The zero `time.Time{}`. -/
def Time.zero : Time := .instant "0001-01-01T00:00:00Z"

/-- The value of a struct field, for the field types of `internal/models`. -/
inductive GoValue where
  | int (n : Int)
  | string (s : String)
  | bool (b : Bool)
  | time (t : Time)
  deriving DecidableEq, Repr

/-- The static type of a field. -/
inductive Kind where
  | int | string | bool | time
  deriving DecidableEq, Repr

/-- The static type of a field value. -/
def GoValue.kind : GoValue → Kind
  | .int _ => .int
  | .string _ => .string
  | .bool _ => .bool
  | .time _ => .time

/-- A flat Go struct value passed as `interface{}`: its fields in declaration
order, each under its `json` tag; a struct type has distinct JSON names. -/
structure GoStruct where
  fields : List (String × GoValue)
  nodup : (fields.map Prod.fst).Nodup

/-- Two struct values of the same struct type: same tags, same field types. -/
def GoStruct.sameShape (a b : GoStruct) : Prop :=
  a.fields.map (fun f => (f.1, f.2.kind)) = b.fields.map (fun f => (f.1, f.2.kind))

/-- The error of `Time.MarshalJSON` as `json.Marshal` reports it. -/
def marshalTimeError : GoError :=
  .wrap ("json: error calling MarshalJSON for type time.Time: " ++
    "Time.MarshalJSON: year outside of range [0,9999]")
    (.leaf "Time.MarshalJSON: year outside of range [0,9999]")

/-- One field through `json.Marshal` then `json.Unmarshal` into `interface{}`. -/
def roundTripField : GoValue → Except GoError Value
  | .int n => .ok (.float64 (float64OfInt n))
  | .string s => .ok (.string s)
  | .bool b => .ok (.bool b)
  | .time (.instant t) => .ok (.string t)
  | .time .outOfRange => .error marshalTimeError

/-- The fields of a struct through `json.Marshal` then `json.Unmarshal`. -/
def roundTripFields : List (String × GoValue) → Except GoError JMap
  | [] => .ok []
  | (k, v) :: rest =>
    match roundTripField v with
    | .error err => .error err
    | .ok jv =>
      match roundTripFields rest with
      | .error err => .error err
      | .ok m => .ok ((k, jv) :: m)

/-- The function `structToMap` of `pgdb.go`. `json.Unmarshal` of the marshalled
object of a struct cannot fail, so only the `json.Marshal` failure remains. -/
def structToMap (s : GoStruct) : Except GoError JMap :=
  match roundTripFields s.fields with
  | .error err => .error (.wrap ("cannot parse json: " ++ err.Error) err)
  | .ok m => .ok m

/-! ## The query compiler -/

/-- The text `strconv.FormatFloat(x, 'f', 0, 64)` and the verb `%.0f` print for
an integer-valued `float64`: its decimal digits. -/
def formatFloat0 (x : Int) : String := toString x

/-- The `switch v.(type)` of the loop: the text of a changed value. No case
matches the nil interface, which leaves `vStr` empty. -/
def vStr : Value → String
  | .bool b => if b then "true" else "false"
  | .float64 x => formatFloat0 x
  | .string s => s
  | .nil => ""

/-- The call `fmt.Sprintf("'%s'", vStr)`. -/
def quoted (s : String) : String := "'" ++ s ++ "'"

/-- The verb `%.0f` applied to the `interface{}` holding the identifier. Operands
that are not floats print as a bad-verb text (precision 0 truncates a string). -/
def fmtF0 : Value → String
  | .float64 x => formatFloat0 x
  | .string _ => "%!f(string=)"
  | .bool b => "%!f(bool=" ++ (if b then "true" else "false") ++ ")"
  | .nil => "%!f(<nil>)"

/-- The `for k, v := range objMap` loop, on the entries in the order visited,
threading the two slices `fields` and `values`. -/
def rangeLoop (defaultObjMap : JMap) :
    List (String × Value) → List String × List String → List String × List String
  | [], acc => acc
  | (k, v) :: rest, (fields, values) =>
    if k = "id" then rangeLoop defaultObjMap rest (fields, values)
    else if v ≠ defaultObjMap.get k then
      rangeLoop defaultObjMap rest (fields ++ [k], values ++ [quoted (vStr v)])
    else rangeLoop defaultObjMap rest (fields, values)

/-- The final `fmt.Sprintf(fmtStr, dbTable, strings.Join(fields, ","),
strings.Join(values, ","), id)` with the format chosen by `len(values) < 2`. -/
def sprintfQuery (dbTable : String) (fields values : List String) (id : Value) : String :=
  if values.length < 2 then
    "UPDATE " ++ dbTable ++ " SET " ++ ",".intercalate fields ++ " = (" ++
      ",".intercalate values ++ ") WHERE id = " ++ fmtF0 id ++ ";"
  else
    "UPDATE " ++ dbTable ++ " SET (" ++ ",".intercalate fields ++ ") = (" ++
      ",".intercalate values ++ ") WHERE id = " ++ fmtF0 id ++ ";"

/-- The function `UpdateQueryCompilation` of `pgdb.go`. -/
def UpdateQueryCompilation (order : RangeOrder) (dbTable : String) (obj defaultObj : GoStruct) :
    String × Option GoError :=
  match structToMap obj with
  | .error err => ("", some (.wrap ("convert error: " ++ err.Error) err))
  | .ok objMap =>
    match objMap.lookup "id" with
    | none => ("", some (.leaf "no id specified: %!w(<nil>)"))
    | some id =>
      match structToMap defaultObj with
      | .error err => ("", some (.wrap ("convert error: " ++ err.Error) err))
      | .ok defaultObjMap =>
        let fv := rangeLoop defaultObjMap (order.visit objMap) ([], [])
        (sprintfQuery dbTable fv.1 fv.2 id, none)

/-! ## The models -/

/-- The struct `models.User`. -/
structure User where
  Id : Int
  Username : String
  Password : String
  FirstName : String
  LastName : String
  Email : String
  IsActive : Bool
  deriving DecidableEq, Repr

/-- The struct `models.Post`. -/
structure Post where
  Id : Int
  Title : String
  Body : String
  UserId : Int
  deriving DecidableEq, Repr

/-- The struct `models.Comment`. -/
structure Comment where
  Id : Int
  Date : Time
  Body : String
  UserId : Int
  PostId : Int
  deriving DecidableEq, Repr

/-- The zero value `models.User{}`. -/
def User.zero : User := ⟨0, "", "", "", "", "", false⟩

/-- The zero value `models.Post{}`. -/
def Post.zero : Post := ⟨0, "", "", 0⟩

/-- The zero value `models.Comment{}`. -/
def Comment.zero : Comment := ⟨0, Time.zero, "", 0, 0⟩

/-- A `models.User` as the `interface{}` argument, fields under their JSON tags. -/
def User.toStruct (u : User) : GoStruct :=
  ⟨[("id", .int u.Id), ("username", .string u.Username), ("password", .string u.Password),
    ("first_name", .string u.FirstName), ("last_name", .string u.LastName),
    ("email", .string u.Email), ("is_active", .bool u.IsActive)], by simp⟩

/-- A `models.Post` as the `interface{}` argument, fields under their JSON tags. -/
def Post.toStruct (p : Post) : GoStruct :=
  ⟨[("id", .int p.Id), ("title", .string p.Title), ("body", .string p.Body),
    ("user_id", .int p.UserId)], by simp⟩

/-- A `models.Comment` as the `interface{}` argument, fields under their JSON tags. -/
def Comment.toStruct (c : Comment) : GoStruct :=
  ⟨[("id", .int c.Id), ("date", .time c.Date), ("body", .string c.Body),
    ("user_id", .int c.UserId), ("post_id", .int c.PostId)], by simp⟩

/-- The serialized form of a `models.User` (what `structToMap` returns for it). -/
def User.toMap (u : User) : JMap :=
  [("id", .float64 (float64OfInt u.Id)), ("username", .string u.Username),
   ("password", .string u.Password), ("first_name", .string u.FirstName),
   ("last_name", .string u.LastName), ("email", .string u.Email),
   ("is_active", .bool u.IsActive)]

/-- The serialized form of a `models.Post` (what `structToMap` returns for it). -/
def Post.toMap (p : Post) : JMap :=
  [("id", .float64 (float64OfInt p.Id)), ("title", .string p.Title),
   ("body", .string p.Body), ("user_id", .float64 (float64OfInt p.UserId))]

/-- The RFC 3339 text of a time that has one. -/
def Time.text : Time → String
  | .instant t => t
  | .outOfRange => ""

/-- The serialized form of a `models.Comment` whose date is within range (what
`structToMap` returns for it). -/
def Comment.toMap (c : Comment) : JMap :=
  [("id", .float64 (float64OfInt c.Id)), ("date", .string c.Date.text),
   ("body", .string c.Body), ("user_id", .float64 (float64OfInt c.UserId)),
   ("post_id", .float64 (float64OfInt c.PostId))]

/-- The columns of the compiled statement: the slice `fields` after the loop. -/
def columnList (order : RangeOrder) (objMap defaultObjMap : JMap) : List String :=
  (rangeLoop defaultObjMap (order.visit objMap) ([], [])).1

/-- The literals of the compiled statement: the slice `values` after the loop. -/
def valueList (order : RangeOrder) (objMap defaultObjMap : JMap) : List String :=
  (rangeLoop defaultObjMap (order.visit objMap) ([], [])).2

/-- The entries on which the loop appends: not the identifier, and different from
the baseline. -/
def changed (defaultObjMap : JMap) (entries : List (String × Value)) : List (String × Value) :=
  entries.filter (fun e => decide (e.1 ≠ "id") && decide (e.2 ≠ defaultObjMap.get e.1))

/-! ## The connection pool -/

/-- The result set of `pool.Query` as the `for rows.Next()` loop consumes it: for each
row the outcome of `rows.Scan` into a record, then the value of `rows.Err()`. A
failed query is an empty result set whose `Err()` is the failure. -/
structure Rows (α : Type) where
  scans : List (Except GoError α)
  err : Option GoError

/-- A statement sent to the pool together with its bound parameters. -/
structure Stmt where
  sql : String
  args : List GoValue
  deriving DecidableEq, Repr

/-- The `pgxpool.Pool` as the stores use it, over a database state `σ`: `Query`,
`QueryRow` followed by `Scan` of the returned id, and `Exec` followed by
`RowsAffected`. -/
structure Pool (σ α : Type) where
  Query : String → List GoValue → σ → Rows α × σ
  QueryRow : String → List GoValue → σ → Except GoError Int × σ
  Exec : String → List GoValue → σ → Except GoError Int × σ

/-- A pool that also records every statement it is sent. -/
def Pool.traced {σ α : Type} (db : Pool σ α) : Pool (σ × List Stmt) α where
  Query := fun sql args s => ((db.Query sql args s.1).1, ((db.Query sql args s.1).2, s.2 ++ [⟨sql, args⟩]))
  QueryRow := fun sql args s =>
    ((db.QueryRow sql args s.1).1, ((db.QueryRow sql args s.1).2, s.2 ++ [⟨sql, args⟩]))
  Exec := fun sql args s => ((db.Exec sql args s.1).1, ((db.Exec sql args s.1).2, s.2 ++ [⟨sql, args⟩]))

/-! ## The stores -/

/-- What distinguishes the three stores and the three repositories, which are
otherwise the same code: the resource name used in messages, the table, the SQL
constants, the parameters of the insert, and the record type. -/
structure Resource (α : Type) where
  name : String
  table : String
  CreateSQL : String
  SelectByID : String
  DeleteByID : String
  createArgs : α → List GoValue
  toStruct : α → GoStruct
  zero : α
  withId : α → Int → α

/-- The constants and types of `userstore.go`. -/
def userResource : Resource User where
  name := "user"
  table := "users"
  CreateSQL := "\nINSERT INTO users(username, password, first_name, last_name, email, is_active)\nVALUES\n    ($1, crypt($2, gen_salt('bf', 8)), $3, $4, $5, $6)\nRETURNING id;\n"
  SelectByID := "SELECT * FROM users WHERE id = $1;"
  DeleteByID := "\nDELETE FROM users WHERE id = $1;\n"
  createArgs := fun user => [.string user.Username, .string user.Password,
    .string user.FirstName, .string user.LastName, .string user.Email, .bool user.IsActive]
  toStruct := User.toStruct
  zero := User.zero
  withId := fun user id => { user with Id := id }

/-- The constants and types of `poststore.go`. -/
def postResource : Resource Post where
  name := "post"
  table := "posts"
  CreateSQL := "\nINSERT INTO posts(title, body, user_id)\nVALUES\n    ($1, $2, $3)\nRETURNING id;\n"
  SelectByID := "SELECT * FROM posts WHERE id = $1;"
  DeleteByID := "\nDELETE FROM posts WHERE id = $1;\n"
  createArgs := fun post => [.string post.Title, .string post.Body, .int post.UserId]
  toStruct := Post.toStruct
  zero := Post.zero
  withId := fun post id => { post with Id := id }

/-- The constants and types of `commentstore.go`. -/
def commentResource : Resource Comment where
  name := "comment"
  table := "comments"
  CreateSQL := "\nINSERT INTO comments(body, user_id, post_id)\nVALUES\n    ($1, $2, $3)\nRETURNING id;\n"
  SelectByID := "SELECT * FROM comments WHERE id = $1;"
  DeleteByID := "\nDELETE FROM comments WHERE id = $1;\n"
  createArgs := fun comment => [.string comment.Body, .int comment.UserId, .int comment.PostId]
  toStruct := Comment.toStruct
  zero := Comment.zero
  withId := fun comment id => { comment with Id := id }

/-- The method `Create` of a store. -/
def Store.Create {σ α : Type} (r : Resource α) (db : Pool σ α) (x : α) (s : σ) :
    (Int × Option GoError) × σ :=
  match db.QueryRow r.CreateSQL (r.createArgs x) s with
  | (.error err, s1) => ((0, some err), s1)
  | (.ok id, s1) => ((id, none), s1)

/-- The error `fmt.Errorf("%w: user id %d", sentinel, id)` of `Read`. -/
def readError (r : Resource α) (sentinel : GoError) (id : Int) : GoError :=
  .wrap (sentinel.Error ++ ": " ++ r.name ++ " id " ++ toString id) sentinel

/-- The `for rows.Next()` loop of `Read`, threading the variables `user` and
`found`; an error is an early `return nil, err`. -/
def scanLoop {α : Type} (r : Resource α) (id : Int) :
    List (Except GoError α) → α → Bool → Except GoError (α × Bool)
  | [], user, found => .ok (user, found)
  | row :: rest, _, found =>
    if found then .error (readError r ErrMultipleFound id)
    else
      match row with
      | .error err => .error err
      | .ok scanned => scanLoop r id rest scanned true

/-- The method `Read` of a store. -/
def Store.Read {σ α : Type} (r : Resource α) (db : Pool σ α) (id : Int) (s : σ) :
    (Option α × Option GoError) × σ :=
  match db.Query r.SelectByID [.int id] s with
  | (rows, s1) =>
    match scanLoop r id rows.scans r.zero false with
    | .error err => ((none, some err), s1)
    | .ok (user, found) =>
      match rows.err with
      | some err => ((none, some err), s1)
      | none =>
        if !found then ((none, some (readError r ErrNotFound id)), s1)
        else ((some user, none), s1)

/-- The method `Update` of a store. -/
def Store.Update {σ α : Type} (order : RangeOrder) (r : Resource α) (db : Pool σ α) (user : α)
    (s : σ) : (Option α × Option GoError) × σ :=
  match UpdateQueryCompilation order r.table (r.toStruct user) (r.toStruct r.zero) with
  | (_, some err) => ((some r.zero, some (.wrap ("cannot compile query: " ++ err.Error) err)), s)
  | (UpdateQuery, none) =>
    match db.Exec UpdateQuery [] s with
    | (.error err, s1) => ((some r.zero, some err), s1)
    | (.ok rowsAffected, s1) =>
      if rowsAffected ≠ 1 then
        ((some r.zero, some (.leaf ("update " ++ r.name ++ " error: " ++ toString rowsAffected ++
          " rows affected"))), s1)
      else ((some user, none), s1)

/-- The method `Delete` of a store. -/
def Store.Delete {σ α : Type} (r : Resource α) (db : Pool σ α) (id : Int) (s : σ) :
    Option GoError × σ :=
  match db.Exec r.DeleteByID [.int id] s with
  | (.error err, s1) => (some err, s1)
  | (.ok rowsAffected, s1) =>
    if rowsAffected ≠ 1 then
      (some (.leaf ("delete " ++ r.name ++ " error: " ++ toString rowsAffected ++
        " rows affected")), s1)
    else (none, s1)

/-! ## The repositories -/

/-- The interfaces `UserStorage`, `PostStorage`, `CommentStorage`: any
implementation of the four methods, over its own state `σ`. A returned
`*models.T` is `none` when nil. -/
structure Storage (σ α : Type) where
  Create : α → σ → (Int × Option GoError) × σ
  Read : Int → σ → (Option α × Option GoError) × σ
  Update : α → σ → (Option α × Option GoError) × σ
  Delete : Int → σ → Option GoError × σ

/-- A call on a storage. -/
inductive StoreCall (α : Type) where
  | Create (x : α)
  | Read (id : Int)
  | Update (x : α)
  | Delete (id : Int)
  deriving DecidableEq, Repr

/-- A storage that also records every call made on it. -/
def Storage.traced {σ α : Type} (st : Storage σ α) : Storage (σ × List (StoreCall α)) α where
  Create := fun x s => ((st.Create x s.1).1, ((st.Create x s.1).2, s.2 ++ [.Create x]))
  Read := fun id s => ((st.Read id s.1).1, ((st.Read id s.1).2, s.2 ++ [.Read id]))
  Update := fun x s => ((st.Update x s.1).1, ((st.Update x s.1).2, s.2 ++ [.Update x]))
  Delete := fun id s => ((st.Delete id s.1).1, ((st.Delete id s.1).2, s.2 ++ [.Delete id]))

/-- The store of a resource on a pool, as the storage handed to the repository. -/
def Store.storage {σ α : Type} (order : RangeOrder) (r : Resource α) (db : Pool σ α) :
    Storage σ α where
  Create := Store.Create r db
  Read := Store.Read r db
  Update := Store.Update order r db
  Delete := Store.Delete r db

/-- What a repository method does: it returns a record pointer and an error, or
it panics on a nil pointer dereference. -/
inductive Outcome (α : Type) where
  | ret (val : Option α) (err : Option GoError)
  | panic
  deriving DecidableEq, Repr

/-- The method `Create` of a repository. -/
def Repo.Create {σ α : Type} (r : Resource α) (st : Storage σ α) (user : α) (s : σ) :
    Outcome α × σ :=
  match st.Create user s with
  | ((_, some err), s1) =>
    (.ret none (some (.wrap ("cannot create " ++ r.name ++ ": " ++ err.Error) err)), s1)
  | ((id, none), s1) => (.ret (some (r.withId user id)) none, s1)

/-- The method `Read` of a repository. The call `user.String()` made for the
trace dereferences the returned pointer. -/
def Repo.Read {σ α : Type} (r : Resource α) (st : Storage σ α) (id : Int) (s : σ) :
    Outcome α × σ :=
  match st.Read id s with
  | ((_, some err), s1) =>
    (.ret none (some (.wrap ("cannot read " ++ r.name ++ ": " ++ err.Error) err)), s1)
  | ((none, none), s1) => (.panic, s1)
  | ((some user, none), s1) => (.ret (some user) none, s1)

/-- The method `Update` of a repository. -/
def Repo.Update {σ α : Type} (r : Resource α) (st : Storage σ α) (updateUser : α) (s : σ) :
    Outcome α × σ :=
  match st.Update updateUser s with
  | ((_, some err), s1) =>
    (.ret none (some (.wrap ("cannot update " ++ r.name ++ ": " ++ err.Error) err)), s1)
  | ((user, none), s1) => (.ret user none, s1)

/-- The method `Delete` of a repository. The call `user.String()` made for the
trace dereferences the pointer returned by the read. -/
def Repo.Delete {σ α : Type} (r : Resource α) (st : Storage σ α) (id : Int) (s : σ) :
    Outcome α × σ :=
  match st.Read id s with
  | ((_, some err), s1) =>
    (.ret none (some (.wrap ("cannot read " ++ r.name ++ ": " ++ err.Error) err)), s1)
  | ((none, none), s1) => (.panic, s1)
  | ((some user, none), s1) =>
    match st.Delete id s1 with
    | (err, s2) => (.ret (some user) err, s2)

/-! ## The stores and repositories by name -/

/-- The method `(*UsersDB).Create` of `userstore.go`. -/
def UsersDB.Create {σ : Type} (db : Pool σ User) (user : User) (s : σ) :=
  Store.Create userResource db user s

/-- The method `(*UsersDB).Read` of `userstore.go`. -/
def UsersDB.Read {σ : Type} (db : Pool σ User) (id : Int) (s : σ) :=
  Store.Read userResource db id s

/-- The method `(*UsersDB).Update` of `userstore.go`. -/
def UsersDB.Update {σ : Type} (order : RangeOrder) (db : Pool σ User) (user : User) (s : σ) :=
  Store.Update order userResource db user s

/-- The method `(*UsersDB).Delete` of `userstore.go`. -/
def UsersDB.Delete {σ : Type} (db : Pool σ User) (id : Int) (s : σ) :=
  Store.Delete userResource db id s

/-- The method `(*PostsDB).Create` of `poststore.go`. -/
def PostsDB.Create {σ : Type} (db : Pool σ Post) (post : Post) (s : σ) :=
  Store.Create postResource db post s

/-- The method `(*PostsDB).Read` of `poststore.go`. -/
def PostsDB.Read {σ : Type} (db : Pool σ Post) (id : Int) (s : σ) :=
  Store.Read postResource db id s

/-- The method `(*PostsDB).Update` of `poststore.go`. -/
def PostsDB.Update {σ : Type} (order : RangeOrder) (db : Pool σ Post) (post : Post) (s : σ) :=
  Store.Update order postResource db post s

/-- The method `(*PostsDB).Delete` of `poststore.go`. -/
def PostsDB.Delete {σ : Type} (db : Pool σ Post) (id : Int) (s : σ) :=
  Store.Delete postResource db id s

/-- The method `(*CommentsDB).Create` of `commentstore.go`. -/
def CommentsDB.Create {σ : Type} (db : Pool σ Comment) (comment : Comment) (s : σ) :=
  Store.Create commentResource db comment s

/-- The method `(*CommentsDB).Read` of `commentstore.go`. -/
def CommentsDB.Read {σ : Type} (db : Pool σ Comment) (id : Int) (s : σ) :=
  Store.Read commentResource db id s

/-- The method `(*CommentsDB).Update` of `commentstore.go`. -/
def CommentsDB.Update {σ : Type} (order : RangeOrder) (db : Pool σ Comment) (comment : Comment)
    (s : σ) :=
  Store.Update order commentResource db comment s

/-- The method `(*CommentsDB).Delete` of `commentstore.go`. -/
def CommentsDB.Delete {σ : Type} (db : Pool σ Comment) (id : Int) (s : σ) :=
  Store.Delete commentResource db id s

/-- The method `Users.Create` of `userrepo.go`. -/
def Users.Create {σ : Type} (us : Storage σ User) (user : User) (s : σ) :=
  Repo.Create userResource us user s

/-- The method `Users.Read` of `userrepo.go`. -/
def Users.Read {σ : Type} (us : Storage σ User) (id : Int) (s : σ) :=
  Repo.Read userResource us id s

/-- The method `Users.Update` of `userrepo.go`. -/
def Users.Update {σ : Type} (us : Storage σ User) (updateUser : User) (s : σ) :=
  Repo.Update userResource us updateUser s

/-- The method `Users.Delete` of `userrepo.go`. -/
def Users.Delete {σ : Type} (us : Storage σ User) (id : Int) (s : σ) :=
  Repo.Delete userResource us id s

/-- The method `Posts.Create` of `postrepo.go`. -/
def Posts.Create {σ : Type} (ps : Storage σ Post) (post : Post) (s : σ) :=
  Repo.Create postResource ps post s

/-- The method `Posts.Read` of `postrepo.go`. -/
def Posts.Read {σ : Type} (ps : Storage σ Post) (id : Int) (s : σ) :=
  Repo.Read postResource ps id s

/-- The method `Posts.Update` of `postrepo.go`. -/
def Posts.Update {σ : Type} (ps : Storage σ Post) (updatePost : Post) (s : σ) :=
  Repo.Update postResource ps updatePost s

/-- The method `Posts.Delete` of `postrepo.go`. -/
def Posts.Delete {σ : Type} (ps : Storage σ Post) (id : Int) (s : σ) :=
  Repo.Delete postResource ps id s

/-- The method `Comments.Create` of `commentrepo.go`. -/
def Comments.Create {σ : Type} (cs : Storage σ Comment) (comment : Comment) (s : σ) :=
  Repo.Create commentResource cs comment s

/-- The method `Comments.Read` of `commentrepo.go`. -/
def Comments.Read {σ : Type} (cs : Storage σ Comment) (id : Int) (s : σ) :=
  Repo.Read commentResource cs id s

/-- The method `Comments.Update` of `commentrepo.go`. -/
def Comments.Update {σ : Type} (cs : Storage σ Comment) (updateComment : Comment) (s : σ) :=
  Repo.Update commentResource cs updateComment s

/-- The method `Comments.Delete` of `commentrepo.go`. -/
def Comments.Delete {σ : Type} (cs : Storage σ Comment) (id : Int) (s : σ) :=
  Repo.Delete commentResource cs id s

/-! ## The handlers -/

/-- The value of a decimal digit. -/
def digitValue (c : Char) : Option Nat :=
  if '0' ≤ c ∧ c ≤ '9' then some (c.toNat - '0'.toNat) else none

/-- The value of a run of decimal digits, most significant first; `none` when a
character is not a digit. -/
def parseDigits : List Char → Nat → Option Nat
  | [], acc => some acc
  | c :: rest, acc =>
    match digitValue c with
    | none => none
    | some d => parseDigits rest (acc * 10 + d)

/-- The digits of `strconv.Atoi` after the optional sign: at least one digit. -/
def parseMagnitude (ds : List Char) : Option Nat :=
  if ds = [] then none else parseDigits ds 0

/-- The function `strconv.Atoi` on a 64-bit platform: an optional sign, then one or more
decimal digits, the value within `-2^63 .. 2^63 - 1`. The handlers only test the error
against nil (and log it), so a failure is `none`. -/
def Atoi (s : String) : Option Int :=
  match s.data with
  | [] => none
  | c :: ds =>
    if c = '-' then
      match parseMagnitude ds with
      | none => none
      | some n => if n ≤ 2 ^ 63 then some (-(n : Int)) else none
    else if c = '+' then
      match parseMagnitude ds with
      | none => none
      | some n => if n < 2 ^ 63 then some (n : Int) else none
    else
      match parseMagnitude (c :: ds) with
      | none => none
      | some n => if n < 2 ^ 63 then some (n : Int) else none

/-- The body of a response written through the `gin.Context`: `c.String(code, text)`,
`c.JSON(code, gin.H{"error": msg})` with a string, `c.JSON(code, gin.H{"error": err})`
with an error value, and `c.JSON(code, record)` with a record pointer (nil is `none`). -/
inductive Body (α : Type) where
  | text (s : String)
  | jsonError (msg : String)
  | jsonErrorValue (err : GoError)
  | json (val : Option α)
  deriving DecidableEq, Repr

/-- One write of a response: the HTTP status and the body. -/
structure Response (α : Type) where
  status : Nat
  body : Body α
  deriving DecidableEq, Repr

/-- What a handler does: it writes responses, in order, or it panics on a nil pointer
dereference. -/
inductive Served (α : Type) where
  | wrote (responses : List (Response α))
  | panic
  deriving DecidableEq, Repr

/-- The parts of the request a handler reads: the path parameter `c.Param("id")` and the
outcome of `c.BindJSON` on the body. -/
structure Request (α : Type) where
  param : String
  bind : Except GoError α

/-- The repository held by a handler, as its four methods over a state `σ`. -/
structure Repository (σ α : Type) where
  Create : α → σ → Outcome α × σ
  Read : Int → σ → Outcome α × σ
  Update : α → σ → Outcome α × σ
  Delete : Int → σ → Outcome α × σ

/-- The repository of a resource on a storage (`NewUsers`, `NewPosts`, `NewComments`). -/
def Repo.repository {σ α : Type} (r : Resource α) (st : Storage σ α) : Repository σ α where
  Create := Repo.Create r st
  Read := Repo.Read r st
  Update := Repo.Update r st
  Delete := Repo.Delete r st

/-- A call on a repository. -/
inductive RepoCall (α : Type) where
  | Create (x : α)
  | Read (id : Int)
  | Update (x : α)
  | Delete (id : Int)
  deriving DecidableEq, Repr

/-- A repository that also records every call made on it. -/
def Repository.traced {σ α : Type} (repo : Repository σ α) :
    Repository (σ × List (RepoCall α)) α where
  Create := fun x s => ((repo.Create x s.1).1, ((repo.Create x s.1).2, s.2 ++ [.Create x]))
  Read := fun id s => ((repo.Read id s.1).1, ((repo.Read id s.1).2, s.2 ++ [.Read id]))
  Update := fun x s => ((repo.Update x s.1).1, ((repo.Update x s.1).2, s.2 ++ [.Update x]))
  Delete := fun id s => ((repo.Delete id s.1).1, ((repo.Delete id s.1).2, s.2 ++ [.Delete id]))

/-- The handlers `CreateUser`, `CreatePost`, `CreateComment`. The call
`newUser.String()` made for the trace dereferences the returned pointer. -/
def Handlers.Create {σ α : Type} (r : Resource α) (repo : Repository σ α) (req : Request α)
    (s : σ) : Served α × σ :=
  match req.bind with
  | .error err => (.wrote [⟨400, .jsonErrorValue err⟩], s)
  | .ok user =>
    match repo.Create user s with
    | (.panic, s1) => (.panic, s1)
    | (.ret _ (some err), s1) =>
      (.wrote [⟨500, .jsonError ("create " ++ r.name ++ " error: " ++ err.Error)⟩], s1)
    | (.ret none none, s1) => (.panic, s1)
    | (.ret (some newUser) none, s1) => (.wrote [⟨200, .json (some newUser)⟩], s1)

/-- The handlers `GetUser`, `GetPost`, `GetComment`. The record is formatted with `%v`
for the trace, which prints a nil pointer without dereferencing it. -/
def Handlers.Get {σ α : Type} (repo : Repository σ α) (req : Request α) (s : σ) :
    Served α × σ :=
  match Atoi req.param with
  | none => (.wrote [⟨400, .text ("bad id: " ++ req.param)⟩], s)
  | some id =>
    match repo.Read id s with
    | (.panic, s1) => (.panic, s1)
    | (.ret _ (some err), s1) => (.wrote [⟨500, .jsonError ("get error: " ++ err.Error)⟩], s1)
    | (.ret user none, s1) => (.wrote [⟨200, .json user⟩], s1)

/-- The handlers `UpdateUser`, `UpdatePost`, `UpdateComment`. The call
`updatedUser.String()` made for the trace dereferences the returned pointer. -/
def Handlers.Update {σ α : Type} (r : Resource α) (repo : Repository σ α) (req : Request α)
    (s : σ) : Served α × σ :=
  match req.bind with
  | .error err => (.wrote [⟨400, .jsonErrorValue err⟩], s)
  | .ok user =>
    match repo.Update user s with
    | (.panic, s1) => (.panic, s1)
    | (.ret _ (some err), s1) =>
      (.wrote [⟨500, .jsonError ("update " ++ r.name ++ " error: " ++ err.Error)⟩], s1)
    | (.ret none none, s1) => (.panic, s1)
    | (.ret (some updatedUser) none, s1) => (.wrote [⟨200, .json (some updatedUser)⟩], s1)

/-- The handlers `DeleteUser`, `DeletePost`, `DeleteComment`. The call
`deletedUser.String()` made for the trace dereferences the returned pointer. -/
def Handlers.Delete {σ α : Type} (r : Resource α) (repo : Repository σ α) (req : Request α)
    (s : σ) : Served α × σ :=
  match Atoi req.param with
  | none => (.wrote [⟨400, .text ("bad id: " ++ req.param)⟩], s)
  | some id =>
    match repo.Delete id s with
    | (.panic, s1) => (.panic, s1)
    | (.ret _ (some err), s1) =>
      (.wrote [⟨500, .jsonError ("delete " ++ r.name ++ " error: " ++ err.Error)⟩], s1)
    | (.ret none none, s1) => (.panic, s1)
    | (.ret (some deletedUser) none, s1) => (.wrote [⟨200, .json (some deletedUser)⟩], s1)

/-- The method `userHandlers.CreateUser` of `userhandlers.go`. -/
def userHandlers.CreateUser {σ : Type} (userrepo : Repository σ User) (req : Request User)
    (s : σ) :=
  Handlers.Create userResource userrepo req s

/-- The method `userHandlers.GetUser` of `userhandlers.go`. -/
def userHandlers.GetUser {σ : Type} (userrepo : Repository σ User) (req : Request User) (s : σ) :=
  Handlers.Get userrepo req s

/-- The method `userHandlers.UpdateUser` of `userhandlers.go`. -/
def userHandlers.UpdateUser {σ : Type} (userrepo : Repository σ User) (req : Request User)
    (s : σ) :=
  Handlers.Update userResource userrepo req s

/-- The method `userHandlers.DeleteUser` of `userhandlers.go`. -/
def userHandlers.DeleteUser {σ : Type} (userrepo : Repository σ User) (req : Request User)
    (s : σ) :=
  Handlers.Delete userResource userrepo req s

/-- The method `postHandlers.CreatePost` of `posthandlers.go`. -/
def postHandlers.CreatePost {σ : Type} (postrepo : Repository σ Post) (req : Request Post)
    (s : σ) :=
  Handlers.Create postResource postrepo req s

/-- The method `postHandlers.GetPost` of `posthandlers.go`. -/
def postHandlers.GetPost {σ : Type} (postrepo : Repository σ Post) (req : Request Post) (s : σ) :=
  Handlers.Get postrepo req s

/-- The method `postHandlers.UpdatePost` of `posthandlers.go`. -/
def postHandlers.UpdatePost {σ : Type} (postrepo : Repository σ Post) (req : Request Post)
    (s : σ) :=
  Handlers.Update postResource postrepo req s

/-- The method `postHandlers.DeletePost` of `posthandlers.go`. -/
def postHandlers.DeletePost {σ : Type} (postrepo : Repository σ Post) (req : Request Post)
    (s : σ) :=
  Handlers.Delete postResource postrepo req s

/-- The method `commentHandlers.CreateComment` of `commenthandlers.go`. -/
def commentHandlers.CreateComment {σ : Type} (commentrepo : Repository σ Comment)
    (req : Request Comment) (s : σ) :=
  Handlers.Create commentResource commentrepo req s

/-- The method `commentHandlers.GetComment` of `commenthandlers.go`. -/
def commentHandlers.GetComment {σ : Type} (commentrepo : Repository σ Comment)
    (req : Request Comment) (s : σ) :=
  Handlers.Get commentrepo req s

/-- The method `commentHandlers.UpdateComment` of `commenthandlers.go`. -/
def commentHandlers.UpdateComment {σ : Type} (commentrepo : Repository σ Comment)
    (req : Request Comment) (s : σ) :=
  Handlers.Update commentResource commentrepo req s

/-- The method `commentHandlers.DeleteComment` of `commenthandlers.go`. -/
def commentHandlers.DeleteComment {σ : Type} (commentrepo : Repository σ Comment)
    (req : Request Comment) (s : σ) :=
  Handlers.Delete commentResource commentrepo req s

/-! ## The database server, for one table -/

/-- The parts of the PostgreSQL server and of its driver that the statements rely on and
that are not part of the repository: `crypt` and `gen_salt` of pgcrypto (a `bf` hash is 60
characters long), `now()`, the checks of the table constraints (uniqueness, foreign keys,
column widths), and the error `rows.Scan` returns for a NULL scanned into a field that is
not a pointer. The salt and the clock are read at the value of the identity sequence. -/
structure Engine (α : Type) where
  crypt : String → String → String
  crypt_length : ∀ password salt : String, (crypt password salt).length = 60
  gen_salt : Int → String
  now : Int → String
  violation : List α → α → Option GoError
  scanNull : GoError

/-- The state of one table: the rows whose scanned columns all hold a value, as records;
the next value of the identity sequence of the `id` column; and the ids of the rows that
hold NULL in a column the store scans into a field that is not a pointer (the schema sets
`user_id` of a post or comment to NULL when its user is deleted). -/
structure Db (α : Type) where
  rows : List α
  nextId : Int
  nullRows : List Int

/-- The row that `UserCreate` inserts: the columns listed, from the bound parameters, the
password through `crypt($2, gen_salt('bf', 8))`, and the generated id. -/
def userRow (E : Engine User) (id : Int) : List GoValue → Option User
  | [.string username, .string password, .string first_name, .string last_name,
      .string email, .bool is_active] =>
    some ⟨id, username, E.crypt password (E.gen_salt id), first_name, last_name, email,
      is_active⟩
  | _ => none

/-- The row that `PostCreate` inserts: the columns listed, from the bound parameters, and
the generated id. -/
def postRow (_E : Engine Post) (id : Int) : List GoValue → Option Post
  | [.string title, .string body, .int user_id] => some ⟨id, title, body, user_id⟩
  | _ => none

/-- The row that `CommentCreate` inserts: the columns listed, from the bound parameters,
the generated id, and the column `date`, which the statement does not list, at its default
`NOW()`. -/
def commentRow (E : Engine Comment) (id : Int) : List GoValue → Option Comment
  | [.string body, .int user_id, .int post_id] =>
    some ⟨id, .instant (E.now id), body, user_id, post_id⟩
  | _ => none

/-- The pool of a server holding the table of resource `r`, for the three statements of
the store: the insert (`row` builds the inserted row, the sequence advances even when a
constraint rejects the row), the select by id and the delete by id. `SELECT *` yields the
columns in the order of the `Scan`, so a row without NULL scans into the stored record; the
`Scan` of a row with a NULL fails with `E.scanNull`. The text of an update statement is not
interpreted: any other statement is answered with an error. -/
def Db.pool {α : Type} (E : Engine α) (r : Resource α) (row : Int → List GoValue → Option α)
    (idOf : α → Int) : Pool (Db α) α where
  Query := fun sql args s =>
    if sql = r.SelectByID then
      match args with
      | [.int id] =>
        (⟨(s.rows.filter (fun x => decide (idOf x = id))).map .ok ++
            (s.nullRows.filter (fun i => decide (i = id))).map (fun _ => .error E.scanNull),
          none⟩, s)
      | _ => (⟨[], some (.leaf "wrong parameters")⟩, s)
    else (⟨[], some (.leaf "statement not modelled")⟩, s)
  QueryRow := fun sql args s =>
    if sql = r.CreateSQL then
      match row s.nextId args with
      | none => (.error (.leaf "wrong parameters"), s)
      | some x =>
        match E.violation s.rows x with
        | some err => (.error err, ⟨s.rows, s.nextId + 1, s.nullRows⟩)
        | none => (.ok s.nextId, ⟨s.rows ++ [x], s.nextId + 1, s.nullRows⟩)
    else (.error (.leaf "statement not modelled"), s)
  Exec := fun sql args s =>
    if sql = r.DeleteByID then
      match args with
      | [.int id] =>
        (.ok (((s.rows.filter (fun x => decide (idOf x = id))).length +
            (s.nullRows.filter (fun i => decide (i = id))).length : Nat) : Int),
          ⟨s.rows.filter (fun x => !decide (idOf x = id)), s.nextId,
            s.nullRows.filter (fun i => !decide (i = id))⟩)
      | _ => (.error (.leaf "wrong parameters"), s)
    else (.error (.leaf "statement not modelled"), s)

/-- The server holding the table `users`. -/
def usersDb (E : Engine User) : Pool (Db User) User :=
  Db.pool E userResource (userRow E) User.Id

/-- The server holding the table `posts`. -/
def postsDb (E : Engine Post) : Pool (Db Post) Post :=
  Db.pool E postResource (postRow E) Post.Id

/-- The server holding the table `comments`. -/
def commentsDb (E : Engine Comment) : Pool (Db Comment) Comment :=
  Db.pool E commentResource (commentRow E) Comment.Id

/-- A table in a state the server can reach: ids are distinct and below the sequence. -/
def Db.wf {α : Type} (idOf : α → Int) (s : Db α) : Prop :=
  (s.rows.map idOf ++ s.nullRows).Nodup ∧ (∀ x ∈ s.rows, idOf x < s.nextId) ∧
    ∀ i ∈ s.nullRows, i < s.nextId

/-- The table after `CREATE TABLE`: no row, the sequence at 1. -/
def Db.empty {α : Type} : Db α := ⟨[], 1, []⟩

/-! ## Schema and demo data -/

/-- The constant `InitDBQuery` of `pgdb.go`. -/
def InitDBQuery : String :=
    "\n" ++
    "-- Drop All Tables and Extensions\n" ++
    "DROP TABLE IF EXISTS users CASCADE;\n" ++
    "DROP TABLE IF EXISTS posts CASCADE;\n" ++
    "DROP TABLE IF EXISTS comments;\n" ++
    "DROP EXTENSION pgcrypto;\n" ++
    "\n" ++
    "-- Create some required DB settings (Only first time)\n" ++
    "-- Set timezone to Yekaterinburg (GMT+05)\n" ++
    "set timezone = 'Asia/Yekaterinburg';\n" ++
    "-- Create extension to use cryptography functions in queries\n" ++
    "CREATE EXTENSION pgcrypto;\n" ++
    "\n" ++
    "-- Create New Tables\n" ++
    "CREATE TABLE IF NOT EXISTS users\n" ++
    "(\n" ++
    "\tid INT PRIMARY KEY GENERATED ALWAYS AS IDENTITY,\n" ++
    "\tusername VARCHAR(100) NOT NULL UNIQUE,\n" ++
    "\tpassword VARCHAR(100) NOT NULL,\n" ++
    "\tfirst_name VARCHAR(100),\n" ++
    "\tlast_name VARCHAR(100),\n" ++
    "\temail VARCHAR(100),\n" ++
    "\tis_active BOOL\n" ++
    ");\n" ++
    "CREATE TABLE IF NOT EXISTS posts\n" ++
    "(\n" ++
    "\tid INT PRIMARY KEY GENERATED ALWAYS AS IDENTITY,\n" ++
    "\ttitle VARCHAR(255) NOT NULL UNIQUE,\n" ++
    "\tbody TEXT NOT NULL,\n" ++
    "\tuser_id INT,\n" ++
    "\tFOREIGN KEY (user_id) REFERENCES users (id) ON DELETE SET NULL ON UPDATE CASCADE\n" ++
    ");\n" ++
    "CREATE TABLE IF NOT EXISTS comments\n" ++
    "(\n" ++
    "\tid INT PRIMARY KEY GENERATED ALWAYS AS IDENTITY,\n" ++
    "\tdate TIMESTAMP WITHOUT TIME ZONE DEFAULT NOW(),\n" ++
    "\tbody TEXT NOT NULL,\n" ++
    "\tuser_id INT,\n" ++
    "\tpost_id INT,\n" ++
    "\tFOREIGN KEY (user_id) REFERENCES users (id) ON DELETE SET NULL ON UPDATE CASCADE,\n" ++
    "\tFOREIGN KEY (post_id) REFERENCES posts (id) ON DELETE CASCADE ON UPDATE CASCADE\n" ++
    ");\n"

/-- The constant `InitDemoQuery` of `pgdb.go`. -/
def InitDemoQuery : String :=
    "\n" ++
    "-- Insert Users\n" ++
    "INSERT INTO users(username, password, first_name, last_name, email, is_active)\n" ++
    "VALUES\n" ++
    "\t('admin', crypt('password', gen_salt('bf', 8)), 'Administrator', 'TaskSystem', 'admin@example.loc', 'true'),\n" ++
    "\t('ptsypyshev', crypt('testpass', gen_salt('bf', 8)), 'Pavel', 'Tsypyshev', 'ptsypyshev@example.loc', 'true'),\n" ++
    "\t('vpupkin', crypt('puptest', gen_salt('bf', 8)), 'Vasiliy', 'Pupkin', 'vpupkin@example.loc', 'false'),\n" ++
    "\t('iivanov', crypt('ivantest', gen_salt('bf', 8)), 'Ivan', 'Ivanov', 'iivanov@example.loc', 'true'),\n" ++
    "\t('ppetrov', crypt('petrtest', gen_salt('bf', 8)), 'Petr', 'Petrov', 'ppetrov@example.loc', 'true'),\n" ++
    "\t('ssidorov', crypt('sidrtest', gen_salt('bf', 8)), 'Sidor', 'Sidorov', 'ssidorov@example.loc', 'true');\n" ++
    "\n" ++
    "-- Insert Posts\n" ++
    "INSERT INTO posts(title, body, user_id)\n" ++
    "VALUES\n" ++
    "\t('Post 1', 'Content for post 1', 2),\n" ++
    "\t('Post 2', 'Content for post 2', 3),\n" ++
    "\t('Post 3', 'Content for post 3', 4),\n" ++
    "\t('Post 4', 'Content for post 4', 5),\n" ++
    "\t('Post 5', 'Content for post 5', 6),\n" ++
    "\t('Post 6', 'Content for post 6', 6),\n" ++
    "\t('Post 7', 'Content for post 7', 5),\n" ++
    "\t('Post 8', 'Content for post 8', 4),\n" ++
    "\t('Post 9', 'Content for post 9', 3),\n" ++
    "\t('Post 10', 'Content for post 10', 2);\n" ++
    "\n" ++
    "-- Insert Comments\n" ++
    "INSERT INTO comments(body, user_id, post_id)\n" ++
    "VALUES\n" ++
    "\t('Comment 1', 6, 1),\n" ++
    "\t('Comment 2', 5, 2),\n" ++
    "\t('Comment 3', 4, 3),\n" ++
    "\t('Comment 4', 3, 4),\n" ++
    "\t('Comment 5', 2, 5),\n" ++
    "\t('Comment 6', 2, 1),\n" ++
    "\t('Comment 7', 3, 2),\n" ++
    "\t('Comment 8', 4, 8),\n" ++
    "\t('Comment 9', 5, 9),\n" ++
    "\t('Comment 10',6, 1);\n"

/-- The function `InitSchema` of `pgdb.go`. -/
def InitSchema {σ α : Type} (pool : Pool σ α) (s : σ) : Option GoError × σ :=
  match pool.Exec InitDBQuery [] s with
  | (.error err, s1) => (some err, s1)
  | (.ok _, s1) => (none, s1)

/-- The function `AddDemoData` of `pgdb.go`. -/
def AddDemoData {σ α : Type} (pool : Pool σ α) (s : σ) : Option GoError × σ :=
  match pool.Exec InitDemoQuery [] s with
  | (.error err, s1) => (some err, s1)
  | (.ok _, s1) => (none, s1)

/-- A line written through the `zap.Logger`: its level and its message. -/
structure LogEntry where
  level : String
  msg : String
  deriving DecidableEq, Repr

/-- The handler `defaultHandlers.InitSchema`: the lines it logs and the responses it
writes, in order. The `if err != nil` block has no `return`. -/
def defaultHandlers.InitSchema {σ α : Type} (pool : Pool σ α) (s : σ) :
    (Served α × List LogEntry) × σ :=
  match SimpleBlog.InitSchema pool s with
  | (some err, s1) =>
    ((.wrote ([⟨500, .text "DB is not initialized"⟩] ++ [⟨200, .text "DB Initialized"⟩]),
      [⟨"info", "defaultHandlers.InitSchema"⟩,
       ⟨"error", "cannot init schema: " ++ err.Error⟩]), s1)
  | (none, s1) =>
    ((.wrote [⟨200, .text "DB Initialized"⟩], [⟨"info", "defaultHandlers.InitSchema"⟩]), s1)

/-- The handler `defaultHandlers.AddDemoData`: the lines it logs and the responses it
writes, in order. The `if err != nil` block has no `return`. -/
def defaultHandlers.AddDemoData {σ α : Type} (pool : Pool σ α) (s : σ) :
    (Served α × List LogEntry) × σ :=
  match SimpleBlog.AddDemoData pool s with
  | (some err, s1) =>
    ((.wrote ([⟨500, .text "Demo data is not added"⟩] ++ [⟨200, .text "Demo data is added"⟩]),
      [⟨"info", "defaultHandlers.AddDemoData"⟩,
       ⟨"error", "cannot add demo data: " ++ err.Error⟩]), s1)
  | (none, s1) =>
    ((.wrote [⟨200, .text "Demo data is added"⟩], [⟨"info", "defaultHandlers.AddDemoData"⟩]), s1)

/-! ## Two callers of repository `Delete` -/

/-- Where a call of repository `Delete` stands between its store calls: not started, after
a successful `Read` (holding the record read), or returned. -/
inductive DeleteTask (α : Type) where
  | start
  | readDone (user : α)
  | finished (out : Outcome α)
  deriving DecidableEq, Repr

/-- One store call of a call of repository `Delete`: the `Read` with what follows it up to
the `Delete`, or the `Delete` with the return. A returned call stays as it is. -/
def DeleteTask.step {σ α : Type} (r : Resource α) (st : Storage σ α) (id : Int) :
    DeleteTask α → σ → DeleteTask α × σ
  | .start, s =>
    match st.Read id s with
    | ((_, some err), s1) =>
      (.finished (.ret none (some (.wrap ("cannot read " ++ r.name ++ ": " ++ err.Error) err))),
        s1)
    | ((none, none), s1) => (.finished .panic, s1)
    | ((some user, none), s1) => (.readDone user, s1)
  | .readDone user, s =>
    match st.Delete id s with
    | (err, s2) => (.finished (.ret (some user) err), s2)
  | .finished out, s => (.finished out, s)

/-- Two calls of repository `Delete` for the same id on the same store, their store calls
interleaved by a schedule: `true` lets the first caller make its next store call, `false`
the second. Each store call is one statement, which the server runs as a whole. -/
def runSchedule {σ α : Type} (r : Resource α) (st : Storage σ α) (id : Int) :
    List Bool → DeleteTask α × DeleteTask α × σ → DeleteTask α × DeleteTask α × σ
  | [], c => c
  | true :: rest, (a, b, s) =>
    runSchedule r st id rest ((DeleteTask.step r st id a s).1, b, (DeleteTask.step r st id a s).2)
  | false :: rest, (a, b, s) =>
    runSchedule r st id rest (a, (DeleteTask.step r st id b s).1, (DeleteTask.step r st id b s).2)

/-- The store calls a call of repository `Delete` may still make. -/
def DeleteTask.remaining {α : Type} : DeleteTask α → Nat
  | .start => 2
  | .readDone _ => 1
  | .finished _ => 0

/-- A caller that has not deleted yet, while the record `u` is in the table. -/
def DeleteTask.fresh {α : Type} (u : α) (t : DeleteTask α) : Prop :=
  t = .start ∨ t = .readDone u

/-- A caller other than the one that deleted the record `u`: on its way, or returned with
the not-found outcome `nf` or the row-count outcome `rc`. -/
def DeleteTask.loser {α : Type} (u : α) (nf rc : Outcome α) (t : DeleteTask α) : Prop :=
  t = .start ∨ t = .readDone u ∨ t = .finished nf ∨ t = .finished rc

/-- What holds of two callers deleting the record `u` at every point of every schedule:
while the record is in the table nobody has deleted; once it is gone exactly one caller
has returned the record without error, and the other is on its way or has failed. -/
def raceInv {σ α : Type} (present absent : σ → Prop) (u : α) (nf rc : Outcome α)
    (c : DeleteTask α × DeleteTask α × σ) : Prop :=
  (present c.2.2 ∧ c.1.fresh u ∧ c.2.1.fresh u)
    ∨ (absent c.2.2 ∧
        ((c.1 = .finished (.ret (some u) none) ∧ c.2.1.loser u nf rc)
          ∨ (c.2.1 = .finished (.ret (some u) none) ∧ c.1.loser u nf rc)))

/-! ## Test doubles -/

/-- A pool over a state that is never changed: every query returns `rows`, every
`QueryRow` and `Exec` returns `answer`. -/
def Pool.constant {α : Type} (rows : Rows α) (answer : Except GoError Int) : Pool Unit α where
  Query := fun _ _ s => (rows, s)
  QueryRow := fun _ _ s => (answer, s)
  Exec := fun _ _ s => (answer, s)

/-- A request with only a path parameter (GET and DELETE carry no body). -/
def Request.withParam {α : Type} (param : String) : Request α :=
  ⟨param, .error (.leaf "EOF")⟩

/-- Cuts or pads a text to `n` characters. -/
def padTo (n : Nat) (cs : List Char) : List Char := (cs ++ List.replicate n '.').take n

/-- An engine for examples: the hash keeps the shape of a `bf` hash (`$2a$08$` and 53 more
characters, here taken from the salt and the password), no constraint is violated. -/
def Engine.sample {α : Type} : Engine α where
  crypt := fun password salt => "$2a$08$" ++ String.mk (padTo 53 (salt.data ++ password.data))
  crypt_length := fun password salt => by
    have h : (String.mk (padTo 53 (salt.data ++ password.data))).length = 53 := by
      show (padTo 53 (salt.data ++ password.data)).length = 53
      simp [padTo]
      omega
    rw [String.length_append, h]
    rfl
  gen_salt := fun id => "salt" ++ toString id
  now := fun _ => "2023-01-01T00:00:00Z"
  violation := fun _ _ => none
  scanNull := .leaf "cannot scan NULL"

/-! ## Lemmas on the loop and on the round trip -/

theorem rangeLoop_eq (d : JMap) (l : List (String × Value)) (acc : List String × List String) :
    rangeLoop d l acc =
      (acc.1 ++ (changed d l).map Prod.fst,
       acc.2 ++ (changed d l).map (fun e => quoted (vStr e.2))) := by
  induction l generalizing acc with
  | nil => simp [rangeLoop, changed]
  | cons e rest ih =>
    obtain ⟨k, v⟩ := e
    obtain ⟨fields, values⟩ := acc
    by_cases hk : k = "id"
    · simp [rangeLoop, changed, hk, ih] 
    · by_cases hv : v = d.get k
      · simp [rangeLoop, changed, hk, hv, ih]
      · simp [rangeLoop, changed, hk, hv, ih]

theorem columnList_eq (order : RangeOrder) (m d : JMap) :
    columnList order m d = (changed d (order.visit m)).map Prod.fst := by
  simp [columnList, rangeLoop_eq]

theorem valueList_eq (order : RangeOrder) (m d : JMap) :
    valueList order m d = (changed d (order.visit m)).map (fun e => quoted (vStr e.2)) := by
  simp [valueList, rangeLoop_eq]

theorem roundTripFields_keys {fs : List (String × GoValue)} {m : JMap}
    (h : roundTripFields fs = .ok m) : m.map Prod.fst = fs.map Prod.fst := by
  induction fs generalizing m with
  | nil => simp [roundTripFields] at h; subst h; rfl
  | cons f rest ih =>
    obtain ⟨k, v⟩ := f
    simp only [roundTripFields] at h
    split at h
    · cases h
    · split at h
      · cases h
      · rename_i m1 hm1
        cases h
        simp [ih hm1]

theorem structToMap_keys {s : GoStruct} {m : JMap} (h : structToMap s = .ok m) :
    m.map Prod.fst = s.fields.map Prod.fst := by
  unfold structToMap at h
  split at h
  · cases h
  · rename_i m1 hm1
    cases h
    exact roundTripFields_keys hm1

theorem structToMap_nodup {s : GoStruct} {m : JMap} (h : structToMap s = .ok m) :
    (m.map Prod.fst).Nodup := by
  rw [structToMap_keys h]; exact s.nodup

theorem lookup_eq_some_of_mem {l : List (String × Value)} (nd : (l.map Prod.fst).Nodup)
    {k : String} {v : Value} (h : (k, v) ∈ l) : l.lookup k = some v := by
  induction l with
  | nil => cases h
  | cons e rest ih =>
    obtain ⟨k1, v1⟩ := e
    simp only [List.map_cons, List.nodup_cons] at nd
    rcases List.mem_cons.1 h with h1 | h1
    · cases h1; simp [List.lookup]
    · have hne : k ≠ k1 := by
        intro hk; subst hk
        exact nd.1 (List.mem_map.2 ⟨(k, v), h1, rfl⟩)
      have : (k == k1) = false := by simpa using hne
      simp [List.lookup, this, ih nd.2 h1]

theorem mem_of_lookup_eq_some {l : List (String × Value)} {k : String} {v : Value}
    (h : l.lookup k = some v) : (k, v) ∈ l := by
  induction l with
  | nil => cases h
  | cons e rest ih =>
    obtain ⟨k1, v1⟩ := e
    by_cases hk : k = k1
    · subst hk; simp [List.lookup] at h; subst h; simp
    · have : (k == k1) = false := by simpa using hk
      simp [List.lookup, this] at h
      exact List.mem_cons_of_mem _ (ih h)

theorem get_eq_of_mem {l : JMap} (nd : (l.map Prod.fst).Nodup) {k : String} {v : Value}
    (h : (k, v) ∈ l) : JMap.get l k = v := by
  simp [JMap.get, lookup_eq_some_of_mem nd h]

theorem mem_changed {d : JMap} {l : List (String × Value)} {e : String × Value} :
    e ∈ changed d l ↔ e ∈ l ∧ e.1 ≠ "id" ∧ e.2 ≠ d.get e.1 := by
  simp [changed, List.mem_filter]

theorem changed_perm {d : JMap} {l1 l2 : List (String × Value)} (h : l1.Perm l2) :
    (changed d l1).Perm (changed d l2) := h.filter _

theorem changed_keys_nodup {d : JMap} {l : List (String × Value)}
    (nd : (l.map Prod.fst).Nodup) : ((changed d l).map Prod.fst).Nodup :=
  (List.Sublist.map Prod.fst (List.filter_sublist l)).nodup nd

theorem visit_nodup (order : RangeOrder) {m : JMap} (nd : (m.map Prod.fst).Nodup) :
    ((order.visit m).map Prod.fst).Nodup :=
  ((order.perm m).map Prod.fst).nodup_iff.2 nd

/-- Membership in the column list, for a map with distinct keys. -/
theorem mem_columnList (order : RangeOrder) {m d : JMap} (nd : (m.map Prod.fst).Nodup)
    (k : String) :
    k ∈ columnList order m d ↔
      k ≠ "id" ∧ ∃ v, m.lookup k = some v ∧ v ≠ d.get k := by
  rw [columnList_eq]
  constructor
  · intro h
    obtain ⟨e, he, hk⟩ := List.mem_map.1 h
    obtain ⟨k1, v⟩ := e
    simp only at hk
    subst hk
    have h1 := mem_changed.1 he
    refine ⟨h1.2.1, v, lookup_eq_some_of_mem nd ((order.perm m).mem_iff.1 h1.1), h1.2.2⟩
  · rintro ⟨hid, v, hv, hne⟩
    refine List.mem_map.2 ⟨(k, v), mem_changed.2 ⟨?_, hid, hne⟩, rfl⟩
    exact (order.perm m).mem_iff.2 (mem_of_lookup_eq_some hv)

/-- The value list lines up with the column list: same order, one literal per column. -/
theorem valueList_eq_map (order : RangeOrder) {m d : JMap} (nd : (m.map Prod.fst).Nodup) :
    valueList order m d = (columnList order m d).map (fun c => quoted (vStr (JMap.get m c))) := by
  rw [valueList_eq, columnList_eq, List.map_map]
  apply List.map_congr_left
  intro e he
  obtain ⟨k, v⟩ := e
  have h1 := (mem_changed.1 he).1
  have h2 : (k, v) ∈ m := (order.perm m).mem_iff.1 h1
  simp [get_eq_of_mem nd h2]

/-- The result of the compiler once both round trips succeed and the record has an id. -/
theorem UpdateQueryCompilation_ok (order : RangeOrder) (dbTable : String) (obj defaultObj : GoStruct)
    {objMap defaultObjMap : JMap} {id : Value}
    (h1 : structToMap obj = .ok objMap) (h2 : structToMap defaultObj = .ok defaultObjMap)
    (hid : objMap.lookup "id" = some id) :
    UpdateQueryCompilation order dbTable obj defaultObj =
      (sprintfQuery dbTable (columnList order objMap defaultObjMap)
        (valueList order objMap defaultObjMap) id, none) := by
  simp [UpdateQueryCompilation, h1, h2, hid, columnList, valueList]

theorem sameShape_keys {a b : GoStruct} (h : a.sameShape b) :
    a.fields.map Prod.fst = b.fields.map Prod.fst := by
  have := congrArg (List.map Prod.fst) h
  simpa [List.map_map, Function.comp_def] using this

theorem lookup_isSome_of_key {l : List (String × Value)} {k : String}
    (h : k ∈ l.map Prod.fst) : ∃ v, l.lookup k = some v := by
  induction l with
  | nil => simp at h
  | cons e rest ih =>
    obtain ⟨k1, v1⟩ := e
    by_cases hk : k = k1
    · subst hk; exact ⟨v1, by simp [List.lookup]⟩
    · have hb : (k == k1) = false := by simpa using hk
      have : k ∈ rest.map Prod.fst := by
        simp only [List.map_cons, List.mem_cons] at h
        rcases h with h | h
        · exact absurd h hk
        · exact h
      obtain ⟨v, hv⟩ := ih this
      exact ⟨v, by simp [List.lookup, hb, hv]⟩

theorem eq_singleton_of_nodup {β : Type} {l : List β} {a : β} (nd : l.Nodup)
    (hall : ∀ x ∈ l, x = a) (ha : a ∈ l) : l = [a] := by
  match l, nd, hall, ha with
  | [], _, _, ha => cases ha
  | [x], _, hall, _ => rw [hall x (List.mem_singleton_self x)]
  | x :: y :: rest, nd, hall, _ =>
    have hx : x = a := hall x (by simp)
    have hy : y = a := hall y (by simp)
    simp [hx, hy] at nd

theorem two_le_length_of_mem {β : Type} {l : List β} {a b : β} (hab : a ≠ b)
    (ha : a ∈ l) (hb : b ∈ l) : 2 ≤ l.length := by
  match l, ha, hb with
  | [], ha, _ => cases ha
  | [x], ha, hb =>
    rw [List.mem_singleton] at ha hb
    exact absurd (ha.trans hb.symm) hab
  | _ :: _ :: rest, _, _ => simp

/-- The statement compiled when exactly one non-id field differs from the baseline. -/
theorem UpdateQueryCompilation_single (order : RangeOrder) (t k : String) (n : Int) (val : Value)
    (obj defaultObj : GoStruct) (objMap defaultObjMap : JMap)
    (h1 : structToMap obj = .ok objMap) (h2 : structToMap defaultObj = .ok defaultObjMap)
    (hid : objMap.lookup "id" = some (.float64 n))
    (hk : k ≠ "id") (hkv : objMap.lookup k = some val) (hne : val ≠ defaultObjMap.get k)
    (hothers : ∀ k1 v1, k1 ≠ "id" → k1 ≠ k → objMap.lookup k1 = some v1 →
      v1 = defaultObjMap.get k1) :
    UpdateQueryCompilation order t obj defaultObj =
        ("UPDATE " ++ t ++ " SET " ++ k ++ " = ('" ++ vStr val ++ "') WHERE id = " ++
          toString n ++ ";", none)
      ∧ columnList order objMap defaultObjMap = [k] := by
  have nd := structToMap_nodup h1
  have hch : changed defaultObjMap (order.visit objMap) = [(k, val)] := by
    apply eq_singleton_of_nodup
    · exact (List.Nodup.of_map Prod.fst (changed_keys_nodup (visit_nodup order nd)))
    · intro e he
      obtain ⟨k1, v1⟩ := e
      have hm := mem_changed.1 he
      have hl := lookup_eq_some_of_mem nd ((order.perm objMap).mem_iff.1 hm.1)
      by_cases hkk : k1 = k
      · subst hkk
        rw [hkv] at hl
        cases hl; rfl
      · exact absurd (hothers k1 v1 hm.2.1 hkk hl) hm.2.2
    · exact mem_changed.2
        ⟨(order.perm objMap).mem_iff.2 (mem_of_lookup_eq_some hkv), hk, hne⟩
  have hc : columnList order objMap defaultObjMap = [k] := by simp [columnList_eq, hch]
  have hv : valueList order objMap defaultObjMap = [quoted (vStr val)] := by
    simp [valueList_eq, hch]
  refine ⟨?_, hc⟩
  rw [UpdateQueryCompilation_ok order t obj defaultObj h1 h2 hid, hc, hv]
  simp only [sprintfQuery, List.length_singleton, Nat.one_lt_ofNat, if_true, fmtF0,
    formatFloat0, quoted]
  congr 1
  apply String.ext
  simp [String.intercalate, String.intercalate.go, String.data_append]

/-! ## The query compiler: which columns, in which form -/

/-- C1: for a record and a baseline of the same shape, once the statement is returned, a
field name `k` of the record other than `"id"` is in the column list of the statement if
and only if the record's serialized value for `k` differs from the baseline's, and `"id"`
is never in the column list. -/
theorem C1_column_iff_value_differs (order : RangeOrder) (dbTable : String)
    (obj defaultObj : GoStruct) (objMap defaultObjMap : JMap) (id : Value)
    (hshape : obj.sameShape defaultObj)
    (h1 : structToMap obj = .ok objMap) (h2 : structToMap defaultObj = .ok defaultObjMap)
    (hid : objMap.lookup "id" = some id) :
    UpdateQueryCompilation order dbTable obj defaultObj =
        (sprintfQuery dbTable (columnList order objMap defaultObjMap)
          (valueList order objMap defaultObjMap) id, none)
      ∧ "id" ∉ columnList order objMap defaultObjMap
      ∧ ∀ k, k ∈ obj.fields.map Prod.fst → k ≠ "id" →
          (k ∈ columnList order objMap defaultObjMap ↔
            objMap.lookup k ≠ defaultObjMap.lookup k) := by
  have nd := structToMap_nodup h1
  refine ⟨UpdateQueryCompilation_ok order dbTable obj defaultObj h1 h2 hid, ?_, ?_⟩
  · intro h
    exact ((mem_columnList order nd "id").1 h).1 rfl
  · intro k hk hne
    have hk1 : k ∈ objMap.map Prod.fst := by rw [structToMap_keys h1]; exact hk
    have hk2 : k ∈ defaultObjMap.map Prod.fst := by
      rw [structToMap_keys h2, ← sameShape_keys hshape]; exact hk
    obtain ⟨v, hv⟩ := lookup_isSome_of_key hk1
    obtain ⟨d, hd⟩ := lookup_isSome_of_key hk2
    rw [mem_columnList order nd k]
    simp [hne, hv, hd, JMap.get]

/-- C1 at `Post{Id: 5, Title: "new title"}` against `Post{}`: the column list is `title`. -/
theorem C1_column_iff_value_differs_witness :
    UpdateQueryCompilation RangeOrder.declared "posts" (Post.toStruct ⟨5, "new title", "", 0⟩)
        Post.zero.toStruct =
        (sprintfQuery "posts" (columnList RangeOrder.declared (Post.toMap ⟨5, "new title", "", 0⟩)
            (Post.toMap Post.zero))
          (valueList RangeOrder.declared (Post.toMap ⟨5, "new title", "", 0⟩)
            (Post.toMap Post.zero)) (.float64 5), none)
      ∧ "id" ∉ columnList RangeOrder.declared (Post.toMap ⟨5, "new title", "", 0⟩)
          (Post.toMap Post.zero)
      ∧ ∀ k, k ∈ (Post.toStruct ⟨5, "new title", "", 0⟩).fields.map Prod.fst → k ≠ "id" →
          (k ∈ columnList RangeOrder.declared (Post.toMap ⟨5, "new title", "", 0⟩)
              (Post.toMap Post.zero) ↔
            (Post.toMap ⟨5, "new title", "", 0⟩).lookup k ≠ (Post.toMap Post.zero).lookup k) :=
  C1_column_iff_value_differs RangeOrder.declared "posts" (Post.toStruct ⟨5, "new title", "", 0⟩)
    Post.zero.toStruct (Post.toMap ⟨5, "new title", "", 0⟩) (Post.toMap Post.zero) (.float64 5)
    rfl rfl rfl rfl

/-- C2: when the record differs from the baseline in exactly one non-id field `k`, whose
value renders as `vStr val`, and its serialized identifier is `n`, the compiler returns no
error and exactly `UPDATE t SET k = ('v') WHERE id = n;`, naming column `k` only. -/
theorem C2_single_change_scalar_form (order : RangeOrder) (t k : String) (n : Int) (val : Value)
    (obj defaultObj : GoStruct) (objMap defaultObjMap : JMap)
    (h1 : structToMap obj = .ok objMap) (h2 : structToMap defaultObj = .ok defaultObjMap)
    (hid : objMap.lookup "id" = some (.float64 n))
    (hk : k ≠ "id") (hkv : objMap.lookup k = some val) (hne : val ≠ defaultObjMap.get k)
    (hothers : ∀ k1 v1, k1 ≠ "id" → k1 ≠ k → objMap.lookup k1 = some v1 →
      v1 = defaultObjMap.get k1) :
    UpdateQueryCompilation order t obj defaultObj =
        ("UPDATE " ++ t ++ " SET " ++ k ++ " = ('" ++ vStr val ++ "') WHERE id = " ++
          toString n ++ ";", none)
      ∧ columnList order objMap defaultObjMap = [k] :=
  UpdateQueryCompilation_single order t k n val obj defaultObj objMap defaultObjMap h1 h2 hid hk hkv
    hne hothers

/-- C2 at `Post{Id: 5, Title: "new title"}` against `Post{}` on table `posts`. -/
theorem C2_single_change_scalar_form_witness :
    UpdateQueryCompilation RangeOrder.reversed "posts" (Post.toStruct ⟨5, "new title", "", 0⟩)
        Post.zero.toStruct =
      ("UPDATE posts SET title = ('new title') WHERE id = 5;", none)
    ∧ columnList RangeOrder.reversed (Post.toMap ⟨5, "new title", "", 0⟩) (Post.toMap Post.zero) =
      ["title"] :=
  C2_single_change_scalar_form RangeOrder.reversed "posts" "title" 5 (.string "new title")
    (Post.toStruct ⟨5, "new title", "", 0⟩) Post.zero.toStruct
    (Post.toMap ⟨5, "new title", "", 0⟩) (Post.toMap Post.zero) rfl rfl rfl (by decide) rfl
    (by decide)
    (by
      intro k1 v1 hid hk hl
      have hm := mem_of_lookup_eq_some hl
      simp [Post.toMap, Post.zero] at hm
      rcases hm with ⟨h, _⟩ | ⟨h, _⟩ | ⟨h, hv⟩ | ⟨h, hv⟩
      · exact absurd h hid
      · exact absurd h hk
      · subst h; subst hv; rfl
      · subst h; subst hv; rfl)

/-- C3: when the record differs from the baseline in two or more non-id fields, whatever
the visiting order, the compiler returns `UPDATE t SET (c1,...,cn) = ('v1',...,'vn') WHERE
id = <id>;` where the columns are exactly the changed fields, each once, the two lists have
the same length, and the i-th literal is the rendering of the i-th column's value. -/
theorem C3_tuple_form_lists_aligned (order : RangeOrder) (t : String)
    (obj defaultObj : GoStruct) (objMap defaultObjMap : JMap) (id : Value)
    (h1 : structToMap obj = .ok objMap) (h2 : structToMap defaultObj = .ok defaultObjMap)
    (hid : objMap.lookup "id" = some id)
    (k1 k2 : String) (v1 v2 : Value) (hk : k1 ≠ k2)
    (hk1 : k1 ≠ "id") (hv1 : objMap.lookup k1 = some v1) (hne1 : v1 ≠ defaultObjMap.get k1)
    (hk2 : k2 ≠ "id") (hv2 : objMap.lookup k2 = some v2) (hne2 : v2 ≠ defaultObjMap.get k2) :
    UpdateQueryCompilation order t obj defaultObj =
        ("UPDATE " ++ t ++ " SET (" ++ ",".intercalate (columnList order objMap defaultObjMap) ++
          ") = (" ++ ",".intercalate (valueList order objMap defaultObjMap) ++
          ") WHERE id = " ++ fmtF0 id ++ ";", none)
      ∧ (columnList order objMap defaultObjMap).Nodup
      ∧ (∀ k, k ∈ columnList order objMap defaultObjMap ↔
          k ≠ "id" ∧ ∃ v, objMap.lookup k = some v ∧ v ≠ defaultObjMap.get k)
      ∧ (valueList order objMap defaultObjMap).length =
          (columnList order objMap defaultObjMap).length
      ∧ 2 ≤ (columnList order objMap defaultObjMap).length
      ∧ valueList order objMap defaultObjMap =
          (columnList order objMap defaultObjMap).map
            (fun c => "'" ++ vStr (JMap.get objMap c) ++ "'")
      ∧ (columnList order objMap defaultObjMap).Perm
          (columnList RangeOrder.declared objMap defaultObjMap) := by
  have nd := structToMap_nodup h1
  have hm1 : k1 ∈ columnList order objMap defaultObjMap :=
    (mem_columnList order nd k1).2 ⟨hk1, v1, hv1, hne1⟩
  have hm2 : k2 ∈ columnList order objMap defaultObjMap :=
    (mem_columnList order nd k2).2 ⟨hk2, v2, hv2, hne2⟩
  have hlen : 2 ≤ (columnList order objMap defaultObjMap).length :=
    two_le_length_of_mem hk hm1 hm2
  have hvl : (valueList order objMap defaultObjMap).length =
      (columnList order objMap defaultObjMap).length := by
    simp [valueList_eq, columnList_eq]
  refine ⟨?_, ?_, fun k => mem_columnList order nd k, hvl, hlen, ?_, ?_⟩
  · rw [UpdateQueryCompilation_ok order t obj defaultObj h1 h2 hid]
    have : ¬ (valueList order objMap defaultObjMap).length < 2 := by omega
    simp [sprintfQuery, this]
  · rw [columnList_eq]
    exact changed_keys_nodup (visit_nodup order nd)
  · exact valueList_eq_map order nd
  · rw [columnList_eq, columnList_eq]
    exact (changed_perm ((order.perm objMap).trans (RangeOrder.declared.perm objMap).symm)).map _

/-- C3 at a user whose username and is_active differ from the zero user, fields visited
in reverse order. -/
theorem C3_tuple_form_lists_aligned_witness :
    UpdateQueryCompilation RangeOrder.reversed "users"
        (User.toStruct ⟨7, "bob", "", "", "", "", true⟩) User.zero.toStruct =
      ("UPDATE users SET (is_active,username) = ('true','bob') WHERE id = 7;", none) :=
  (C3_tuple_form_lists_aligned RangeOrder.reversed "users"
    (User.toStruct ⟨7, "bob", "", "", "", "", true⟩) User.zero.toStruct
    (User.toMap ⟨7, "bob", "", "", "", "", true⟩) (User.toMap User.zero) (.float64 7)
    rfl rfl rfl "username" "is_active" (.string "bob") (.bool true)
    (by decide) (by decide) rfl (by decide) (by decide) rfl (by decide)).1

/-- C4: when every non-id field of the record equals the baseline's, the compiler returns
no error and the statement with empty column and value lists, exactly
`UPDATE t SET  = () WHERE id = n;`. -/
theorem C4_no_change_empty_lists (order : RangeOrder) (t : String) (n : Int)
    (obj defaultObj : GoStruct) (objMap defaultObjMap : JMap)
    (h1 : structToMap obj = .ok objMap) (h2 : structToMap defaultObj = .ok defaultObjMap)
    (hid : objMap.lookup "id" = some (.float64 n))
    (hsame : ∀ k v, k ≠ "id" → objMap.lookup k = some v → v = defaultObjMap.get k) :
    UpdateQueryCompilation order t obj defaultObj =
        ("UPDATE " ++ t ++ " SET  = () WHERE id = " ++ toString n ++ ";", none)
      ∧ columnList order objMap defaultObjMap = []
      ∧ valueList order objMap defaultObjMap = [] := by
  have nd := structToMap_nodup h1
  have hc : columnList order objMap defaultObjMap = [] := by
    apply List.eq_nil_iff_forall_not_mem.2
    intro k hkm
    obtain ⟨hk, v, hv, hne⟩ := (mem_columnList order nd k).1 hkm
    exact hne (hsame k v hk hv)
  have hv : valueList order objMap defaultObjMap = [] := by
    rw [valueList_eq_map order nd, hc]; rfl
  refine ⟨?_, hc, hv⟩
  rw [UpdateQueryCompilation_ok order t obj defaultObj h1 h2 hid, hc, hv]
  simp only [sprintfQuery, List.length_nil, Nat.ofNat_pos, if_true, fmtF0, formatFloat0]
  congr 1
  apply String.ext
  simp [String.intercalate, String.data_append]

/-- C4 at `Post{Id: 3}` against `Post{}`. -/
theorem C4_no_change_empty_lists_witness :
    UpdateQueryCompilation RangeOrder.declared "posts" (Post.toStruct ⟨3, "", "", 0⟩)
        Post.zero.toStruct =
      ("UPDATE posts SET  = () WHERE id = 3;", none) :=
  (C4_no_change_empty_lists RangeOrder.declared "posts" 3 (Post.toStruct ⟨3, "", "", 0⟩)
    Post.zero.toStruct (Post.toMap ⟨3, "", "", 0⟩) (Post.toMap Post.zero) rfl rfl rfl
    (by
      intro k v hid hl
      have hm := mem_of_lookup_eq_some hl
      simp [Post.toMap] at hm
      rcases hm with ⟨h, _⟩ | ⟨h, hv⟩ | ⟨h, hv⟩ | ⟨h, hv⟩
      · exact absurd h hid
      · subst h; subst hv; rfl
      · subst h; subst hv; rfl
      · subst h; subst hv; rfl)).1

/-- C5: a record whose serialized mapping has no `"id"` key makes the compiler return the
empty string and a non-nil error; a record that has the key never gets that error, and
gets no error at all once the baseline serializes. -/
theorem C5_fails_iff_no_id_key (order : RangeOrder) (t : String) (obj defaultObj : GoStruct)
    (objMap : JMap) (h1 : structToMap obj = .ok objMap) :
    (objMap.lookup "id" = none →
        UpdateQueryCompilation order t obj defaultObj =
          ("", some (.leaf "no id specified: %!w(<nil>)")))
      ∧ (∀ id, objMap.lookup "id" = some id →
          (UpdateQueryCompilation order t obj defaultObj).2 ≠
              some (.leaf "no id specified: %!w(<nil>)")
            ∧ ∀ d, structToMap defaultObj = .ok d →
                (UpdateQueryCompilation order t obj defaultObj).2 = none) := by
  refine ⟨fun h => by simp [UpdateQueryCompilation, h1, h], fun id hid => ⟨?_, ?_⟩⟩
  · cases h2 : structToMap defaultObj with
    | error err => simp [UpdateQueryCompilation, h1, hid, h2]
    | ok d => simp [UpdateQueryCompilation, h1, hid, h2]
  · intro d h2
    simp [UpdateQueryCompilation, h1, hid, h2]

/-- C5 at a struct that has a title and no id, and at `Post{Id: 1}`. -/
theorem C5_fails_iff_no_id_key_witness :
    UpdateQueryCompilation RangeOrder.declared "posts" ⟨[("title", .string "x")], by simp⟩
        Post.zero.toStruct = ("", some (.leaf "no id specified: %!w(<nil>)"))
      ∧ (UpdateQueryCompilation RangeOrder.declared "posts" (Post.toStruct ⟨1, "", "", 0⟩)
          Post.zero.toStruct).2 = none :=
  ⟨(C5_fails_iff_no_id_key RangeOrder.declared "posts" ⟨[("title", .string "x")], by simp⟩
      Post.zero.toStruct [("title", .string "x")] rfl).1 rfl,
   ((C5_fails_iff_no_id_key RangeOrder.declared "posts" (Post.toStruct ⟨1, "", "", 0⟩)
      Post.zero.toStruct (Post.toMap ⟨1, "", "", 0⟩) rfl).2 (.float64 1) rfl).2
      (Post.toMap Post.zero) rfl⟩

theorem two_pow_excessBits_le (fuel n : Nat) (hn : 0 < n) : 2 ^ excessBits fuel n ≤ n := by
  induction fuel generalizing n with
  | zero => simpa [excessBits] using hn
  | succ f ih =>
    unfold excessBits
    split
    · simpa using hn
    · rename_i h
      have h2 : 0 < n / 2 := by
        have : 2 ^ 53 ≤ n := Nat.le_of_not_lt h
        omega
      have := ih (n / 2) h2
      rw [pow_succ]
      omega

theorem roundNearestEven_pos {n : Nat} (hn : 0 < n) : 0 < roundNearestEven n := by
  unfold roundNearestEven
  have hle := two_pow_excessBits_le 64 n hn
  have hq : 0 < n / 2 ^ excessBits 64 n := Nat.div_pos hle (by positivity)
  have hp : 0 < 2 ^ excessBits 64 n := by positivity
  simp only
  split
  · exact Nat.mul_pos (by omega) hp
  · exact Nat.mul_pos hq hp

theorem roundNearestEven_of_lt {n : Nat} (hn : n < 2 ^ 53) : roundNearestEven n = n := by
  have h0 : excessBits 64 n = 0 := by
    norm_num at hn
    simpa [excessBits] using hn
  simp [roundNearestEven, h0, Nat.mod_one]

theorem float64OfInt_eq_zero_iff (n : Int) : float64OfInt n = 0 ↔ n = 0 := by
  cases n with
  | ofNat m =>
    simp only [float64OfInt]
    constructor
    · intro h
      by_contra hne
      have hm : 0 < m := by
        rcases Nat.eq_zero_or_pos m with h0 | h0
        · subst h0; exact absurd rfl hne
        · exact h0
      have := roundNearestEven_pos hm
      have h3 : (roundNearestEven m : Int) = 0 := h
      omega
    · intro h
      have hm : m = 0 := by
        have : (m : Int) = 0 := h
        omega
      subst hm
      rfl
  | negSucc m =>
    simp only [float64OfInt]
    have := roundNearestEven_pos (show 0 < m + 1 by omega)
    constructor
    · intro h
      have h3 : -(roundNearestEven (m + 1) : Int) = 0 := h
      omega
    · intro h
      cases h

theorem float64OfInt_of_lt {n : Int} (hn : n.natAbs < 2 ^ 53) : float64OfInt n = n := by
  cases n with
  | ofNat m =>
    have hm : m < 2 ^ 53 := by simpa using hn
    simp [float64OfInt, roundNearestEven_of_lt hm]
  | negSucc m =>
    have hm : m + 1 < 2 ^ 53 := by simpa [Int.natAbs] using hn
    simp only [float64OfInt, roundNearestEven_of_lt hm]
    rfl

theorem structToMap_user (u : User) : structToMap u.toStruct = .ok u.toMap := rfl

theorem structToMap_post (p : Post) : structToMap p.toStruct = .ok p.toMap := rfl

theorem structToMap_comment (c : Comment) (t : String) (h : c.Date = .instant t) :
    structToMap c.toStruct = .ok c.toMap := by
  obtain ⟨i, d, b, u, p⟩ := c
  simp only at h
  subst h
  rfl

theorem user_toMap_nodup (u : User) : (u.toMap.map Prod.fst).Nodup := by simp [User.toMap]

theorem post_toMap_nodup (p : Post) : (p.toMap.map Prod.fst).Nodup := by simp [Post.toMap]

theorem comment_toMap_nodup (c : Comment) : (c.toMap.map Prod.fst).Nodup := by
  simp [Comment.toMap]

/-- The statement a store's `Update` sends, once the compiler returns one: the compiled
text, with no bound parameter. -/
theorem Store.Update_traced_stmt {σ α : Type} (order : RangeOrder) (r : Resource α)
    (db : Pool σ α) (x : α) (s : σ) (q : String)
    (h : UpdateQueryCompilation order r.table (r.toStruct x) (r.toStruct r.zero) = (q, none)) :
    (Store.Update order r db.traced x (s, [])).2.2 = [⟨q, []⟩] := by
  unfold Store.Update
  rw [h]
  simp only [Pool.traced, List.nil_append]
  cases hE : (db.Exec q [] s).1 with
  | error err => rfl
  | ok rowsAffected =>
    by_cases h1 : rowsAffected = 1
    · simp [h1]
    · simp [h1]

/-! ## The query compiler: how values are rendered -/

/-- C6: every element of the value list is the text of the column's value between single
quotes, in column order; a boolean gives `'true'` or `'false'`, a number gives its decimal
digits with no fractional part (an `int` below `2^53` in absolute value gives its own
digits), and the statement a store sends carries the literals inline with no bound
parameter. -/
theorem C6_values_inline_quoted_literals (order : RangeOrder) (t : String)
    (obj defaultObj : GoStruct) (objMap defaultObjMap : JMap) (id : Value)
    (h1 : structToMap obj = .ok objMap) (h2 : structToMap defaultObj = .ok defaultObjMap)
    (hid : objMap.lookup "id" = some id) :
    UpdateQueryCompilation order t obj defaultObj =
        (sprintfQuery t (columnList order objMap defaultObjMap)
          (valueList order objMap defaultObjMap) id, none)
      ∧ valueList order objMap defaultObjMap =
          (columnList order objMap defaultObjMap).map
            (fun c => "'" ++ vStr (JMap.get objMap c) ++ "'")
      ∧ (∀ c b, JMap.get objMap c = .bool b →
          "'" ++ vStr (JMap.get objMap c) ++ "'" = if b then "'true'" else "'false'")
      ∧ (∀ c x, JMap.get objMap c = .float64 x →
          "'" ++ vStr (JMap.get objMap c) ++ "'" = "'" ++ toString x ++ "'")
      ∧ (∀ n : Int, n.natAbs < 2 ^ 53 → roundTripField (.int n) = .ok (.float64 n))
      ∧ (∀ (σ α : Type) (r : Resource α) (db : Pool σ α) (x : α) (s : σ) (q : String),
          UpdateQueryCompilation order r.table (r.toStruct x) (r.toStruct r.zero) = (q, none) →
          (Store.Update order r db.traced x (s, [])).2.2 = [⟨q, []⟩]) := by
  have nd := structToMap_nodup h1
  refine ⟨UpdateQueryCompilation_ok order t obj defaultObj h1 h2 hid,
    valueList_eq_map order nd, ?_, ?_, ?_, ?_⟩
  · intro c b hb
    rw [hb]
    cases b <;> rfl
  · intro c x hx
    rw [hx]
    rfl
  · intro n hn
    simp [roundTripField, float64OfInt_of_lt hn]
  · intro σ α r db x s q h
    exact Store.Update_traced_stmt order r db x s q h

/-- C6 at `Post{Id: 1, UserId: 42}` against `Post{}`: user_id 42 is emitted as `'42'`. -/
theorem C6_values_inline_quoted_literals_witness :
    UpdateQueryCompilation RangeOrder.declared "posts" (Post.toStruct ⟨1, "", "", 42⟩)
        Post.zero.toStruct =
      ("UPDATE posts SET user_id = ('42') WHERE id = 1;", none) :=
  (C6_values_inline_quoted_literals RangeOrder.declared "posts" (Post.toStruct ⟨1, "", "", 42⟩)
    Post.zero.toStruct (Post.toMap ⟨1, "", "", 42⟩) (Post.toMap Post.zero) (.float64 1)
    rfl rfl rfl).1

/-- C7: a changed string field is embedded as it is: for every non-empty title `s` the
statement compiled for a post is `UPDATE posts SET title = ('` then `s` then
`') WHERE id = <id>;`, with no character of `s` escaped or removed. -/
theorem C7_string_embedded_unescaped (order : RangeOrder) (n : Int) (s : String) (hs : s ≠ "") :
    vStr (.string s) = s
      ∧ (∀ (obj : GoStruct) (objMap defaultObjMap : JMap), structToMap obj = .ok objMap →
          valueList order objMap defaultObjMap =
              (columnList order objMap defaultObjMap).map
                (fun c => "'" ++ vStr (JMap.get objMap c) ++ "'")
            ∧ ∀ c, JMap.get objMap c = .string s →
                "'" ++ vStr (JMap.get objMap c) ++ "'" = "'" ++ s ++ "'")
      ∧ UpdateQueryCompilation order "posts" (Post.toStruct ⟨n, s, "", 0⟩) Post.zero.toStruct =
        ("UPDATE posts SET title = ('" ++ s ++ "') WHERE id = " ++ toString (float64OfInt n) ++
          ";", none) := by
  refine ⟨rfl, ?_, ?_⟩
  · intro obj objMap defaultObjMap h1
    refine ⟨valueList_eq_map order (structToMap_nodup h1), fun c hc => ?_⟩
    rw [hc]
    rfl
  refine (UpdateQueryCompilation_single order "posts" "title" (float64OfInt n) (.string s)
    (Post.toStruct ⟨n, s, "", 0⟩) Post.zero.toStruct (Post.toMap ⟨n, s, "", 0⟩)
    (Post.toMap Post.zero) rfl rfl rfl (by decide) rfl ?_ ?_).1
  · simpa [Post.toMap, Post.zero, JMap.get, List.lookup] using hs
  · intro k1 v1 hid hk hl
    have hm := mem_of_lookup_eq_some hl
    simp [Post.toMap] at hm
    rcases hm with ⟨h, _⟩ | ⟨h, _⟩ | ⟨h, hv⟩ | ⟨h, hv⟩
    · exact absurd h hid
    · exact absurd h hk
    · subst h; subst hv; rfl
    · subst h; subst hv; rfl

/-- C7 at the title `x') WHERE id = 1; --` of post 5: the text of the title closes the
literal and the assignment, and the statement carries a `WHERE id = 1;` of its own. -/
theorem C7_string_embedded_unescaped_witness :
    UpdateQueryCompilation RangeOrder.declared "posts"
        (Post.toStruct ⟨5, "x') WHERE id = 1; --", "", 0⟩) Post.zero.toStruct =
      ("UPDATE posts SET title = ('x') WHERE id = 1; --') WHERE id = 5;", none) :=
  (C7_string_embedded_unescaped RangeOrder.declared 5 "x') WHERE id = 1; --" (by decide)).2.2

/-- C8, as the code has it: a store's `Update` compiles against the zero record, so a
column is in the column list compiled for the statement only when the submitted field is
not its zero value: for a user, `is_active` if and only if `IsActive` is true and each text
column if and only if the string is not empty; for a post and a comment, `user_id` and
`post_id` if and only if they are not 0. No column of the compiled list carries the zero
value of its field. What the text of a submitted string adds to the statement is not
covered. -/
theorem C8_zero_valued_field_left_out (order : RangeOrder) :
    (∀ (σ : Type) (db : Pool σ User) (u : User) (s : σ),
        (UsersDB.Update order db.traced u (s, [])).2.2 =
          [⟨sprintfQuery "users" (columnList order u.toMap User.zero.toMap)
            (valueList order u.toMap User.zero.toMap) (.float64 (float64OfInt u.Id)), []⟩])
      ∧ (∀ u : User,
          ("is_active" ∈ columnList order u.toMap User.zero.toMap ↔ u.IsActive = true)
          ∧ ("username" ∈ columnList order u.toMap User.zero.toMap ↔ u.Username ≠ "")
          ∧ ("password" ∈ columnList order u.toMap User.zero.toMap ↔ u.Password ≠ "")
          ∧ ("first_name" ∈ columnList order u.toMap User.zero.toMap ↔ u.FirstName ≠ "")
          ∧ ("last_name" ∈ columnList order u.toMap User.zero.toMap ↔ u.LastName ≠ "")
          ∧ ("email" ∈ columnList order u.toMap User.zero.toMap ↔ u.Email ≠ "")
          ∧ ∀ c ∈ columnList order u.toMap User.zero.toMap,
              JMap.get u.toMap c ≠ JMap.get User.zero.toMap c)
      ∧ (∀ (σ : Type) (db : Pool σ Post) (p : Post) (s : σ),
        (PostsDB.Update order db.traced p (s, [])).2.2 =
          [⟨sprintfQuery "posts" (columnList order p.toMap Post.zero.toMap)
            (valueList order p.toMap Post.zero.toMap) (.float64 (float64OfInt p.Id)), []⟩])
      ∧ (∀ p : Post,
          ("title" ∈ columnList order p.toMap Post.zero.toMap ↔ p.Title ≠ "")
          ∧ ("body" ∈ columnList order p.toMap Post.zero.toMap ↔ p.Body ≠ "")
          ∧ ("user_id" ∈ columnList order p.toMap Post.zero.toMap ↔ p.UserId ≠ 0)
          ∧ ∀ c ∈ columnList order p.toMap Post.zero.toMap,
              JMap.get p.toMap c ≠ JMap.get Post.zero.toMap c)
      ∧ (∀ (σ : Type) (db : Pool σ Comment) (c : Comment) (t : String) (s : σ),
        c.Date = .instant t →
        (CommentsDB.Update order db.traced c (s, [])).2.2 =
          [⟨sprintfQuery "comments" (columnList order c.toMap Comment.zero.toMap)
            (valueList order c.toMap Comment.zero.toMap) (.float64 (float64OfInt c.Id)), []⟩])
      ∧ (∀ c : Comment,
          ("body" ∈ columnList order c.toMap Comment.zero.toMap ↔ c.Body ≠ "")
          ∧ ("user_id" ∈ columnList order c.toMap Comment.zero.toMap ↔ c.UserId ≠ 0)
          ∧ ("post_id" ∈ columnList order c.toMap Comment.zero.toMap ↔ c.PostId ≠ 0)
          ∧ ∀ k ∈ columnList order c.toMap Comment.zero.toMap,
              JMap.get c.toMap k ≠ JMap.get Comment.zero.toMap k) := by
  have hz : float64OfInt 0 = 0 := rfl
  have hnz : ∀ n : Int, float64OfInt n = float64OfInt 0 ↔ n = 0 := fun n => by
    rw [hz]; exact float64OfInt_eq_zero_iff n
  have hall : ∀ (m d : JMap), (m.map Prod.fst).Nodup →
      ∀ c ∈ columnList order m d, JMap.get m c ≠ JMap.get d c := by
    intro m d nd c hc
    obtain ⟨_, v, hv, hne⟩ := (mem_columnList order nd c).1 hc
    simpa [JMap.get, hv] using hne
  refine ⟨?_, ?_, ?_, ?_, ?_, ?_⟩
  · intro σ db u s
    exact Store.Update_traced_stmt order userResource db u s _
      (UpdateQueryCompilation_ok order "users" u.toStruct User.zero.toStruct
        (structToMap_user u) (structToMap_user User.zero) rfl)
  · intro u
    refine ⟨?_, ?_, ?_, ?_, ?_, ?_, hall _ _ (user_toMap_nodup u)⟩ <;>
      rw [mem_columnList order (user_toMap_nodup u)] <;>
      simp [User.toMap, User.zero, JMap.get, List.lookup]
  · intro σ db p s
    exact Store.Update_traced_stmt order postResource db p s _
      (UpdateQueryCompilation_ok order "posts" p.toStruct Post.zero.toStruct
        (structToMap_post p) (structToMap_post Post.zero) rfl)
  · intro p
    refine ⟨?_, ?_, ?_, hall _ _ (post_toMap_nodup p)⟩ <;>
      rw [mem_columnList order (post_toMap_nodup p)] <;>
      simp [Post.toMap, Post.zero, JMap.get, List.lookup, hnz]
  · intro σ db c t s hd
    exact Store.Update_traced_stmt order commentResource db c s _
      (UpdateQueryCompilation_ok order "comments" c.toStruct Comment.zero.toStruct
        (structToMap_comment c t hd) (structToMap_comment Comment.zero _ rfl) rfl)
  · intro c
    refine ⟨?_, ?_, ?_, hall _ _ (comment_toMap_nodup c)⟩ <;>
      rw [mem_columnList order (comment_toMap_nodup c)] <;>
      simp [Comment.toMap, Comment.zero, JMap.get, List.lookup, hnz]

/-- C8 at a user submitted with `is_active: false` and an empty `email`, on a pool that
reports one affected row: the statement sent names neither column. -/
theorem C8_zero_valued_field_left_out_witness :
    (UsersDB.Update RangeOrder.declared (Pool.constant ⟨[], none⟩ (.ok 1)).traced
        ⟨4, "carol", "", "", "", "", false⟩ ((), [])).2.2 =
      [⟨"UPDATE users SET username = ('carol') WHERE id = 4;", []⟩] :=
  (C8_zero_valued_field_left_out RangeOrder.declared).1 Unit (Pool.constant ⟨[], none⟩ (.ok 1))
    ⟨4, "carol", "", "", "", "", false⟩ ()

/-! ## Store `Read` and repository `Delete` -/

theorem errorsIs_self_sentinel (name msg : String) :
    errorsIs (.sentinel name msg) (.sentinel name msg) = true := by
  simp [errorsIs]

theorem errorsIs_wrap_of_inner (msg : String) (inner target : GoError)
    (h : errorsIs inner target = true) : errorsIs (.wrap msg inner) target = true := by
  simp [errorsIs, h]

theorem errorsIs_readError {α : Type} (r : Resource α) (name msg : String) (id : Int) :
    errorsIs (readError r (.sentinel name msg) id) (.sentinel name msg) = true :=
  errorsIs_wrap_of_inner _ _ _ (errorsIs_self_sentinel name msg)

/-- The method `Read` of a store on a result set without rows and without error. -/
theorem Store.Read_no_rows {σ α : Type} (r : Resource α) (db : Pool σ α) (id : Int) (s : σ)
    (h : (db.Query r.SelectByID [.int id] s).1 = ⟨[], none⟩) :
    Store.Read r db id s =
      ((none, some (readError r ErrNotFound id)), (db.Query r.SelectByID [.int id] s).2) := by
  unfold Store.Read
  simp [h, scanLoop]

/-- C9: store `Read` as a function of the rows returned for the id, with no query or scan
error: no row gives an error for which `errors.Is(err, ErrNotFound)` holds; two or more
rows give an error for which `errors.Is(err, ErrMultipleFound)` holds; exactly one row
gives no error and the record scanned from that row. The three stores are the instances
`userResource`, `postResource` and `commentResource` of `r`. -/
theorem C9_read_by_number_of_rows {σ α : Type} (r : Resource α) (db : Pool σ α) (id : Int)
    (s : σ) :
    ((db.Query r.SelectByID [.int id] s).1 = ⟨[], none⟩ →
        Store.Read r db id s =
            ((none, some (readError r ErrNotFound id)), (db.Query r.SelectByID [.int id] s).2)
          ∧ errorsIs (readError r ErrNotFound id) ErrNotFound = true)
      ∧ (∀ u : α, (db.Query r.SelectByID [.int id] s).1 = ⟨[.ok u], none⟩ →
          Store.Read r db id s = ((some u, none), (db.Query r.SelectByID [.int id] s).2))
      ∧ (∀ (u : α) (row2 : Except GoError α) (rest : List (Except GoError α))
          (e : Option GoError),
          (db.Query r.SelectByID [.int id] s).1 = ⟨.ok u :: row2 :: rest, e⟩ →
          Store.Read r db id s =
              ((none, some (readError r ErrMultipleFound id)),
                (db.Query r.SelectByID [.int id] s).2)
            ∧ errorsIs (readError r ErrMultipleFound id) ErrMultipleFound = true) := by
  refine ⟨fun h => ⟨Store.Read_no_rows r db id s h, errorsIs_readError r _ _ id⟩, ?_, ?_⟩
  · intro u h
    unfold Store.Read
    simp [h, scanLoop]
  · intro u row2 rest e h
    refine ⟨?_, errorsIs_readError r _ _ id⟩
    unfold Store.Read
    simp [h, scanLoop]

/-- C9 at the three stores, for id 7: no row, one row, two rows. -/
theorem C9_read_by_number_of_rows_witness :
    (UsersDB.Read (Pool.constant ⟨[], none⟩ (.ok 0)) 7 ()).1 =
        (none, some (.wrap "not found: user id 7" ErrNotFound))
      ∧ (PostsDB.Read (Pool.constant ⟨[.ok ⟨7, "t", "b", 2⟩], none⟩ (.ok 0)) 7 ()).1 =
        (some ⟨7, "t", "b", 2⟩, none)
      ∧ (CommentsDB.Read (Pool.constant
          ⟨[.ok ⟨7, Time.zero, "b", 2, 1⟩, .ok ⟨7, Time.zero, "c", 2, 1⟩], none⟩ (.ok 0)) 7 ()).1 =
        (none, some (.wrap "multiple found: comment id 7" ErrMultipleFound)) :=
  ⟨congrArg Prod.fst
      ((C9_read_by_number_of_rows userResource (Pool.constant ⟨[], none⟩ (.ok 0)) 7 ()).1 rfl).1,
    congrArg Prod.fst
      ((C9_read_by_number_of_rows postResource
        (Pool.constant ⟨[.ok ⟨7, "t", "b", 2⟩], none⟩ (.ok 0)) 7 ()).2.1 ⟨7, "t", "b", 2⟩ rfl),
    congrArg Prod.fst
      ((C9_read_by_number_of_rows commentResource
        (Pool.constant ⟨[.ok ⟨7, Time.zero, "b", 2, 1⟩, .ok ⟨7, Time.zero, "c", 2, 1⟩], none⟩
          (.ok 0)) 7 ()).2.2 ⟨7, Time.zero, "b", 2, 1⟩ (.ok ⟨7, Time.zero, "c", 2, 1⟩) [] none
        rfl).1⟩

/-- C10: repository `Delete`, for the three repositories (the instances of `r`): when the
store `Read` fails, the only call made on the store is that `Read` (no `Delete`), the
returned record is nil, and the returned error wraps the read error, so that `errors.Is`
holds for every target it held for; on the store of the repository, for an id without row,
the error satisfies `errors.Is(err, ErrNotFound)` and the only statement sent is the
select. -/
theorem C10_delete_stops_at_failed_read {σ α : Type} (r : Resource α) :
    (∀ (st : Storage σ α) (id : Int) (s s1 : σ) (val : Option α) (err : GoError),
        st.Read id s = ((val, some err), s1) →
        Repo.Delete r st.traced id (s, []) =
            (.ret none (some (.wrap ("cannot read " ++ r.name ++ ": " ++ err.Error) err)),
              (s1, [.Read id]))
          ∧ ∀ target, errorsIs err target = true →
              errorsIs (.wrap ("cannot read " ++ r.name ++ ": " ++ err.Error) err) target = true)
      ∧ (∀ (order : RangeOrder) (db : Pool σ α) (id : Int) (s : σ),
          (db.Query r.SelectByID [.int id] s).1 = ⟨[], none⟩ →
          Repo.Delete r (Store.storage order r db.traced) id (s, []) =
              (.ret none (some (.wrap ("cannot read " ++ r.name ++ ": " ++
                  (readError r ErrNotFound id).Error) (readError r ErrNotFound id))),
                ((db.Query r.SelectByID [.int id] s).2, [⟨r.SelectByID, [.int id]⟩]))
            ∧ errorsIs (.wrap ("cannot read " ++ r.name ++ ": " ++
                  (readError r ErrNotFound id).Error) (readError r ErrNotFound id))
                ErrNotFound = true) := by
  refine ⟨?_, ?_⟩
  · intro st id s s1 val err hread
    refine ⟨?_, fun target h => errorsIs_wrap_of_inner _ _ _ h⟩
    unfold Repo.Delete
    simp [Storage.traced, hread]
  · intro order db id s h
    refine ⟨?_, errorsIs_wrap_of_inner _ _ _ (errorsIs_readError r _ _ id)⟩
    have hq : (db.traced.Query r.SelectByID [.int id] (s, [])).1 = ⟨[], none⟩ := h
    have hr := Store.Read_no_rows r db.traced id (s, []) hq
    unfold Repo.Delete
    simp only [Store.storage, hr]
    simp [Pool.traced]

/-- C10 at the user repository on the user store, for id 7 without row: nil record, an
error wrapping `ErrNotFound`, and the select as the only statement sent. -/
theorem C10_delete_stops_at_failed_read_witness :
    Users.Delete (Store.storage RangeOrder.declared userResource
        (Pool.constant ⟨[], none⟩ (.ok 1)).traced) 7 ((), []) =
      (.ret none (some (.wrap "cannot read user: not found: user id 7"
          (.wrap "not found: user id 7" ErrNotFound))),
        ((), [⟨"SELECT * FROM users WHERE id = $1;", [.int 7]⟩])) :=
  ((C10_delete_stops_at_failed_read userResource).2 RangeOrder.declared
    (Pool.constant ⟨[], none⟩ (.ok 1)) 7 () rfl).1

/-! ## The repositories: what is returned -/

theorem errorsIs_wrap_sentinel (m : String) (e : GoError) (name msg : String) :
    errorsIs (.wrap m e) (.sentinel name msg) = errorsIs e (.sentinel name msg) := by
  simp [errorsIs]

theorem errorsIs_readError_other {α : Type} (r : Resource α) (id : Int) :
    errorsIs (readError r ErrNotFound id) ErrMultipleFound = false
      ∧ errorsIs (readError r ErrMultipleFound id) ErrNotFound = false := by
  constructor <;> simp [readError, errorsIs, ErrNotFound, ErrMultipleFound]

/-- Repository `Create` on a successful and on a failed store `Create`. -/
theorem Repo.Create_eq {σ α : Type} (r : Resource α) (st : Storage σ α) (x : α) (s s1 : σ)
    (n : Int) (err : Option GoError) (h : st.Create x s = ((n, err), s1)) :
    Repo.Create r st x s =
      match err with
      | some e => (.ret none (some (.wrap ("cannot create " ++ r.name ++ ": " ++ e.Error) e)), s1)
      | none => (.ret (some (r.withId x n)) none, s1) := by
  cases err <;> simp [Repo.Create, h]

/-- C11: repository `Delete`, for the three repositories (the instances of `r`): when the
store `Read` returns a record without error and the store `Delete` returns no error, the
calls made on the store are the `Read` and then the `Delete`, both with the id given, and
the result is the record the `Read` returned together with a nil error. -/
theorem C11_delete_returns_read_snapshot {σ α : Type} (r : Resource α) (st : Storage σ α)
    (id : Int) (s s1 s2 : σ) (user : α)
    (hread : st.Read id s = ((some user, none), s1))
    (hdel : st.Delete id s1 = (none, s2)) :
    Repo.Delete r st.traced id (s, []) =
      (.ret (some user) none, (s2, [.Read id, .Delete id])) := by
  unfold Repo.Delete
  simp [Storage.traced, hread, hdel]

/-- C11 at the user repository on the user store, the select returning one row and the
delete affecting one row. -/
theorem C11_delete_returns_read_snapshot_witness :
    Users.Delete (Store.storage RangeOrder.declared userResource
        (Pool.constant ⟨[.ok ⟨7, "ann", "pw", "", "", "", true⟩], none⟩ (.ok 1))).traced 7
        ((), []) =
      (.ret (some ⟨7, "ann", "pw", "", "", "", true⟩) none, ((), [.Read 7, .Delete 7])) :=
  C11_delete_returns_read_snapshot userResource
    (Store.storage RangeOrder.declared userResource
      (Pool.constant ⟨[.ok ⟨7, "ann", "pw", "", "", "", true⟩], none⟩ (.ok 1)))
    7 () () () ⟨7, "ann", "pw", "", "", "", true⟩ rfl rfl

/-- C12: at post 7, whose select returns one row and whose delete affects no row,
repository `Delete` returns the error of the store `Delete` as it is: its message is
`delete post error: 0 rows affected`, without `cannot delete post: ` before it, and it
is not a wrapping error. -/
theorem C12_delete_error_returned_unwrapped :
    (Posts.Delete (Store.storage RangeOrder.declared postResource
        (Pool.constant ⟨[.ok ⟨7, "t", "b", 2⟩], none⟩ (.ok 0))) 7 ()).1 =
      .ret (some ⟨7, "t", "b", 2⟩) (some (.leaf "delete post error: 0 rows affected"))
    ∧ (PostsDB.Delete (Pool.constant ⟨[.ok ⟨7, "t", "b", 2⟩], none⟩ (.ok 0)) 7 ()).1 =
      some (.leaf "delete post error: 0 rows affected")
    ∧ ∀ (msg : String) (cause : GoError),
        GoError.leaf "delete post error: 0 rows affected" ≠ .wrap msg cause :=
  ⟨rfl, rfl, fun _ _ h => GoError.noConfusion h⟩

/-- C13: repository `Read`, for the three repositories: when the store `Read` fails with
`err`, the record is nil and the error has the message `cannot read <resource>: ` followed
by the message of `err`; `errors.Is` against a sentinel holds for it exactly when it holds
for `err`, so for the store's not-found error it holds against `ErrNotFound` and not against
`ErrMultipleFound`, and the other way round for the store's multiple-found error. -/
theorem C13_read_error_keeps_its_kind {σ α : Type} (r : Resource α) (st : Storage σ α)
    (id : Int) (s s1 : σ) (val : Option α) (err : GoError)
    (hread : st.Read id s = ((val, some err), s1)) :
    Repo.Read r st id s =
        (.ret none (some (.wrap ("cannot read " ++ r.name ++ ": " ++ err.Error) err)), s1)
      ∧ (GoError.wrap ("cannot read " ++ r.name ++ ": " ++ err.Error) err).Error =
          "cannot read " ++ r.name ++ ": " ++ err.Error
      ∧ (∀ name msg,
          errorsIs (.wrap ("cannot read " ++ r.name ++ ": " ++ err.Error) err)
              (.sentinel name msg) =
            errorsIs err (.sentinel name msg))
      ∧ (err = readError r ErrNotFound id →
          errorsIs (.wrap ("cannot read " ++ r.name ++ ": " ++ err.Error) err) ErrNotFound = true
            ∧ errorsIs (.wrap ("cannot read " ++ r.name ++ ": " ++ err.Error) err)
                ErrMultipleFound = false)
      ∧ (err = readError r ErrMultipleFound id →
          errorsIs (.wrap ("cannot read " ++ r.name ++ ": " ++ err.Error) err)
              ErrMultipleFound = true
            ∧ errorsIs (.wrap ("cannot read " ++ r.name ++ ": " ++ err.Error) err)
                ErrNotFound = false) := by
  refine ⟨?_, rfl, fun name msg => errorsIs_wrap_sentinel _ _ _ _, ?_, ?_⟩
  · simp [Repo.Read, hread]
  · intro he
    subst he
    exact ⟨errorsIs_wrap_of_inner _ _ _ (errorsIs_readError r _ _ id),
      (errorsIs_wrap_sentinel _ _ _ _).trans (errorsIs_readError_other r id).1⟩
  · intro he
    subst he
    exact ⟨errorsIs_wrap_of_inner _ _ _ (errorsIs_readError r _ _ id),
      (errorsIs_wrap_sentinel _ _ _ _).trans (errorsIs_readError_other r id).2⟩

/-- C13 at the user repository on the user store, for id 7 without row. -/
theorem C13_read_error_keeps_its_kind_witness :
    Users.Read (Store.storage RangeOrder.declared userResource
        (Pool.constant ⟨[], none⟩ (.ok 0))) 7 () =
      (.ret none (some (.wrap "cannot read user: not found: user id 7"
        (.wrap "not found: user id 7" ErrNotFound))), ())
    ∧ errorsIs (.wrap "cannot read user: not found: user id 7"
        (.wrap "not found: user id 7" ErrNotFound)) ErrNotFound = true
    ∧ errorsIs (.wrap "cannot read user: not found: user id 7"
        (.wrap "not found: user id 7" ErrNotFound)) ErrMultipleFound = false :=
  ⟨(C13_read_error_keeps_its_kind userResource
      (Store.storage RangeOrder.declared userResource (Pool.constant ⟨[], none⟩ (.ok 0)))
      7 () () none (readError userResource ErrNotFound 7) rfl).1,
    ((C13_read_error_keeps_its_kind userResource
      (Store.storage RangeOrder.declared userResource (Pool.constant ⟨[], none⟩ (.ok 0)))
      7 () () none (readError userResource ErrNotFound 7) rfl).2.2.2.1 rfl).1,
    ((C13_read_error_keeps_its_kind userResource
      (Store.storage RangeOrder.declared userResource (Pool.constant ⟨[], none⟩ (.ok 0)))
      7 () () none (readError userResource ErrNotFound 7) rfl).2.2.2.1 rfl).2⟩

/-- C14: repository `Create` of users, posts and comments: when the store `Create` returns
the id `n` without error, the result is the submitted record with `Id` set to `n` and every
other field as submitted, whatever `Id` was submitted; when the store `Create` fails, the
returned record is nil. -/
theorem C14_create_stamps_returned_id :
    (∀ (σ : Type) (us : Storage σ User) (user : User) (s s1 : σ) (n : Int),
        us.Create user s = ((n, none), s1) →
        Users.Create us user s =
          (.ret (some ⟨n, user.Username, user.Password, user.FirstName, user.LastName,
            user.Email, user.IsActive⟩) none, s1))
      ∧ (∀ (σ : Type) (ps : Storage σ Post) (post : Post) (s s1 : σ) (n : Int),
        ps.Create post s = ((n, none), s1) →
        Posts.Create ps post s = (.ret (some ⟨n, post.Title, post.Body, post.UserId⟩) none, s1))
      ∧ (∀ (σ : Type) (cs : Storage σ Comment) (comment : Comment) (s s1 : σ) (n : Int),
        cs.Create comment s = ((n, none), s1) →
        Comments.Create cs comment s =
          (.ret (some ⟨n, comment.Date, comment.Body, comment.UserId, comment.PostId⟩) none, s1))
      ∧ (∀ (σ α : Type) (r : Resource α) (st : Storage σ α) (x : α) (s s1 : σ) (n : Int)
          (err : GoError),
        st.Create x s = ((n, some err), s1) →
        Repo.Create r st x s =
          (.ret none (some (.wrap ("cannot create " ++ r.name ++ ": " ++ err.Error) err)), s1)) := by
  refine ⟨?_, ?_, ?_, ?_⟩
  · intro σ us user s s1 n h
    exact Repo.Create_eq userResource us user s s1 n none h
  · intro σ ps post s s1 n h
    exact Repo.Create_eq postResource ps post s s1 n none h
  · intro σ cs comment s s1 n h
    exact Repo.Create_eq commentResource cs comment s s1 n none h
  · intro σ α r st x s s1 n err h
    exact Repo.Create_eq r st x s s1 n (some err) h

/-- C14 at the post repository on the post store: a post submitted with `Id` 99 comes
back with the id 12 returned by the insert. -/
theorem C14_create_stamps_returned_id_witness :
    Posts.Create (Store.storage RangeOrder.declared postResource
        (Pool.constant ⟨[], none⟩ (.ok 12))) ⟨99, "t", "b", 2⟩ () =
      (.ret (some ⟨12, "t", "b", 2⟩) none, ()) :=
  C14_create_stamps_returned_id.2.1 Unit
    (Store.storage RangeOrder.declared postResource (Pool.constant ⟨[], none⟩ (.ok 12)))
    ⟨99, "t", "b", 2⟩ () () 12 rfl

/-! ## The stores: affected rows -/

/-- Store `Update` after a statement that compiled and executed, by affected rows. -/
theorem Store.Update_rows {σ α : Type} (order : RangeOrder) (r : Resource α) (db : Pool σ α)
    (x : α) (s s1 : σ) (q : String) (rows : Int)
    (hq : UpdateQueryCompilation order r.table (r.toStruct x) (r.toStruct r.zero) = (q, none))
    (hexec : db.Exec q [] s = (.ok rows, s1)) :
    Store.Update order r db x s =
      if rows ≠ 1 then
        ((some r.zero, some (.leaf ("update " ++ r.name ++ " error: " ++ toString rows ++
          " rows affected"))), s1)
      else ((some x, none), s1) := by
  unfold Store.Update
  rw [hq]
  simp only [hexec]

/-- C15: update through repository and store, for users, posts and comments (the
instances of `r`): when the statement compiles, executes and affects exactly one row, the
record returned is the record the caller submitted, with a nil error. -/
theorem C15_update_returns_submitted_record {σ α : Type} (order : RangeOrder) (r : Resource α)
    (db : Pool σ α) (x : α) (s s1 : σ) (q : String)
    (hq : UpdateQueryCompilation order r.table (r.toStruct x) (r.toStruct r.zero) = (q, none))
    (hexec : db.Exec q [] s = (.ok 1, s1)) :
    Store.Update order r db x s = ((some x, none), s1)
      ∧ Repo.Update r (Store.storage order r db) x s = (.ret (some x) none, s1) := by
  have h := Store.Update_rows order r db x s s1 q 1 hq hexec
  simp only [ne_eq, not_true_eq_false, if_false] at h
  refine ⟨h, ?_⟩
  unfold Repo.Update
  simp only [Store.storage, h]

/-- C15 at the user repository on the user store: the user comes back as submitted, its
empty fields included, whatever the row holds. -/
theorem C15_update_returns_submitted_record_witness :
    Users.Update (Store.storage RangeOrder.declared userResource
        (Pool.constant ⟨[], none⟩ (.ok 1))) ⟨4, "carol", "", "", "", "", false⟩ () =
      (.ret (some ⟨4, "carol", "", "", "", "", false⟩) none, ()) :=
  (C15_update_returns_submitted_record RangeOrder.declared userResource
    (Pool.constant ⟨[], none⟩ (.ok 1)) ⟨4, "carol", "", "", "", "", false⟩ () ()
    "UPDATE users SET username = ('carol') WHERE id = 4;" rfl rfl).2

/-- C16: store `Update`, for the three stores (the instances of `r`): once the statement
compiles and executes without driver error, `Update` fails if and only if the number of
affected rows is not 1, and the error message is then `update <resource> error: ` followed
by that number and ` rows affected`. -/
theorem C16_update_fails_iff_rows_not_one {σ α : Type} (order : RangeOrder) (r : Resource α)
    (db : Pool σ α) (x : α) (s s1 : σ) (q : String) (rows : Int)
    (hq : UpdateQueryCompilation order r.table (r.toStruct x) (r.toStruct r.zero) = (q, none))
    (hexec : db.Exec q [] s = (.ok rows, s1)) :
    ((Store.Update order r db x s).1.2 ≠ none ↔ rows ≠ 1)
      ∧ (rows ≠ 1 →
          Store.Update order r db x s =
              ((some r.zero, some (.leaf ("update " ++ r.name ++ " error: " ++ toString rows ++
                " rows affected"))), s1)
            ∧ (GoError.leaf ("update " ++ r.name ++ " error: " ++ toString rows ++
                " rows affected")).Error =
              "update " ++ r.name ++ " error: " ++ toString rows ++ " rows affected")
      ∧ (rows = 1 → Store.Update order r db x s = ((some x, none), s1)) := by
  have h := Store.Update_rows order r db x s s1 q rows hq hexec
  by_cases h1 : rows = 1
  · simp [h, h1]
  · simp [h, h1, GoError.Error]

/-- C16 at the user store for an id that matches no row. -/
theorem C16_update_fails_iff_rows_not_one_witness :
    UsersDB.Update RangeOrder.declared (Pool.constant ⟨[], none⟩ (.ok 0))
        ⟨4, "carol", "", "", "", "", false⟩ () =
      ((some User.zero, some (.leaf "update user error: 0 rows affected")), ()) :=
  ((C16_update_fails_iff_rows_not_one RangeOrder.declared userResource
    (Pool.constant ⟨[], none⟩ (.ok 0)) ⟨4, "carol", "", "", "", "", false⟩ () ()
    "UPDATE users SET username = ('carol') WHERE id = 4;" 0 rfl rfl).2.1 (by decide)).1

/-- C17: store `Delete`, for the three stores (the instances of `r`): once the delete
statement executes without driver error, `Delete` returns nil if and only if the number of
affected rows is 1; otherwise it returns an error whose message is
`delete <resource> error: ` followed by that number and ` rows affected`. -/
theorem C17_delete_nil_iff_one_row {σ α : Type} (r : Resource α) (db : Pool σ α) (id : Int)
    (s s1 : σ) (rows : Int)
    (hexec : db.Exec r.DeleteByID [.int id] s = (.ok rows, s1)) :
    ((Store.Delete r db id s).1 = none ↔ rows = 1)
      ∧ (rows ≠ 1 →
          Store.Delete r db id s =
              (some (.leaf ("delete " ++ r.name ++ " error: " ++ toString rows ++
                " rows affected")), s1)
            ∧ (GoError.leaf ("delete " ++ r.name ++ " error: " ++ toString rows ++
                " rows affected")).Error =
              "delete " ++ r.name ++ " error: " ++ toString rows ++ " rows affected")
      ∧ (rows = 1 → Store.Delete r db id s = (none, s1)) := by
  unfold Store.Delete
  by_cases h1 : rows = 1
  · simp [hexec, h1]
  · simp [hexec, h1, GoError.Error]

/-- C17 at the comment store: two affected rows, then one. -/
theorem C17_delete_nil_iff_one_row_witness :
    CommentsDB.Delete (Pool.constant ⟨[], none⟩ (.ok 2)) 7 () =
        (some (.leaf "delete comment error: 2 rows affected"), ())
      ∧ CommentsDB.Delete (Pool.constant ⟨[], none⟩ (.ok 1)) 7 () = (none, ()) :=
  ⟨((C17_delete_nil_iff_one_row commentResource (Pool.constant ⟨[], none⟩ (.ok 2)) 7 () () 2
      rfl).2.1 (by decide)).1,
    (C17_delete_nil_iff_one_row commentResource (Pool.constant ⟨[], none⟩ (.ok 1)) 7 () () 1
      rfl).2.2 rfl⟩

/-- C18: at user 7, whose select returns one row and whose delete then affects no row,
repository `Delete` returns the row-count error together with the record that was read:
the returned record is not nil. The statements sent are the select and the delete. -/
theorem C18_delete_returns_record_with_error :
    Users.Delete (Store.storage RangeOrder.declared userResource
        (Pool.constant ⟨[.ok ⟨7, "ann", "pw", "", "", "", true⟩], none⟩ (.ok 0)).traced) 7
        ((), []) =
      (.ret (some ⟨7, "ann", "pw", "", "", "", true⟩)
          (some (.leaf "delete user error: 0 rows affected")),
        ((), [⟨"SELECT * FROM users WHERE id = $1;", [.int 7]⟩,
          ⟨"\nDELETE FROM users WHERE id = $1;\n", [.int 7]⟩]))
    ∧ (some (⟨7, "ann", "pw", "", "", "", true⟩ : User)) ≠ none :=
  ⟨rfl, fun h => Option.noConfusion h⟩

/-! ## The handlers: status and body -/

/-- C19: the handlers of users, posts and comments (the instances of `r`) on a request
whose body binds and whose id parses: when the repository returns the error `e`, the
response is 500 with the JSON body `{"error": m}`, `m` being `create <resource> error: `,
`get error: `, `update <resource> error: ` or `delete <resource> error: ` followed by the
message of `e`, and no record is written; when the repository returns a record and no
error, the response is 200 with that record as JSON. -/
theorem C19_handler_status_and_body {σ α : Type} (r : Resource α) (repo : Repository σ α)
    (s s1 : σ) :
    (∀ (param : String) (x : α) (val : Option α) (e : GoError),
        repo.Create x s = (.ret val (some e), s1) →
        Handlers.Create r repo ⟨param, .ok x⟩ s =
          (.wrote [⟨500, .jsonError ("create " ++ r.name ++ " error: " ++ e.Error)⟩], s1))
      ∧ (∀ (param : String) (x y : α), repo.Create x s = (.ret (some y) none, s1) →
        Handlers.Create r repo ⟨param, .ok x⟩ s = (.wrote [⟨200, .json (some y)⟩], s1))
      ∧ (∀ (req : Request α) (n : Int) (val : Option α) (e : GoError),
        Atoi req.param = some n → repo.Read n s = (.ret val (some e), s1) →
        Handlers.Get repo req s = (.wrote [⟨500, .jsonError ("get error: " ++ e.Error)⟩], s1))
      ∧ (∀ (req : Request α) (n : Int) (y : α),
        Atoi req.param = some n → repo.Read n s = (.ret (some y) none, s1) →
        Handlers.Get repo req s = (.wrote [⟨200, .json (some y)⟩], s1))
      ∧ (∀ (param : String) (x : α) (val : Option α) (e : GoError),
        repo.Update x s = (.ret val (some e), s1) →
        Handlers.Update r repo ⟨param, .ok x⟩ s =
          (.wrote [⟨500, .jsonError ("update " ++ r.name ++ " error: " ++ e.Error)⟩], s1))
      ∧ (∀ (param : String) (x y : α), repo.Update x s = (.ret (some y) none, s1) →
        Handlers.Update r repo ⟨param, .ok x⟩ s = (.wrote [⟨200, .json (some y)⟩], s1))
      ∧ (∀ (req : Request α) (n : Int) (val : Option α) (e : GoError),
        Atoi req.param = some n → repo.Delete n s = (.ret val (some e), s1) →
        Handlers.Delete r repo req s =
          (.wrote [⟨500, .jsonError ("delete " ++ r.name ++ " error: " ++ e.Error)⟩], s1))
      ∧ (∀ (req : Request α) (n : Int) (y : α),
        Atoi req.param = some n → repo.Delete n s = (.ret (some y) none, s1) →
        Handlers.Delete r repo req s = (.wrote [⟨200, .json (some y)⟩], s1)) := by
  refine ⟨?_, ?_, ?_, ?_, ?_, ?_, ?_, ?_⟩
  · intro param x val e h
    simp [Handlers.Create, h]
  · intro param x y h
    simp [Handlers.Create, h]
  · intro req n val e ha h
    simp [Handlers.Get, ha, h]
  · intro req n y ha h
    simp [Handlers.Get, ha, h]
  · intro param x val e h
    simp [Handlers.Update, h]
  · intro param x y h
    simp [Handlers.Update, h]
  · intro req n val e ha h
    simp [Handlers.Delete, ha, h]
  · intro req n y ha h
    simp [Handlers.Delete, ha, h]

/-- C19 at `GET /users/7` with no such row: 500 with the error
`get error: cannot read user: not found: user id 7`. -/
theorem C19_handler_status_and_body_witness :
    userHandlers.GetUser (Repo.repository userResource
        (Store.storage RangeOrder.declared userResource (Pool.constant ⟨[], none⟩ (.ok 0))))
        (Request.withParam "7") () =
      (.wrote [⟨500, .jsonError "get error: cannot read user: not found: user id 7"⟩], ()) :=
  (C19_handler_status_and_body userResource (Repo.repository userResource
      (Store.storage RangeOrder.declared userResource (Pool.constant ⟨[], none⟩ (.ok 0))))
    () ()).2.2.1 (Request.withParam "7") 7 none
    (.wrap "cannot read user: not found: user id 7" (.wrap "not found: user id 7" ErrNotFound))
    (by decide) rfl

/-- C20: the GET and DELETE handlers of every resource: the handler answers 400 with the
text `bad id: ` followed by the parameter, without calling the repository, if and only if
`strconv.Atoi` rejects the parameter (it is not an optional sign followed by decimal
digits, or it is out of the range of `int`); when the parameter parses to `n`, the
repository is called exactly once, with `n`. -/
theorem C20_bad_id_iff_param_not_integer {σ α : Type} (r : Resource α) (repo : Repository σ α)
    (req : Request α) (s : σ) :
    (Handlers.Get repo.traced req (s, []) =
          (.wrote [⟨400, .text ("bad id: " ++ req.param)⟩], (s, [])) ↔
        Atoi req.param = none)
      ∧ (∀ n, Atoi req.param = some n →
          (Handlers.Get repo.traced req (s, [])).2.2 = [.Read n])
      ∧ (Handlers.Delete r repo.traced req (s, []) =
          (.wrote [⟨400, .text ("bad id: " ++ req.param)⟩], (s, [])) ↔
        Atoi req.param = none)
      ∧ (∀ n, Atoi req.param = some n →
          (Handlers.Delete r repo.traced req (s, [])).2.2 = [.Delete n]) := by
  have hget : ∀ n, Atoi req.param = some n →
      (Handlers.Get repo.traced req (s, [])).2.2 = [.Read n] := by
    intro n ha
    simp only [Handlers.Get, ha, Repository.traced, List.nil_append]
    cases hr : (repo.Read n s).1 with
    | panic => rfl
    | ret val err =>
      cases err with
      | some e => rfl
      | none => rfl
  have hdel : ∀ n, Atoi req.param = some n →
      (Handlers.Delete r repo.traced req (s, [])).2.2 = [.Delete n] := by
    intro n ha
    simp only [Handlers.Delete, ha, Repository.traced, List.nil_append]
    cases hr : (repo.Delete n s).1 with
    | panic => rfl
    | ret val err => cases val <;> cases err <;> rfl
  refine ⟨⟨?_, ?_⟩, hget, ⟨?_, ?_⟩, hdel⟩
  · intro h
    cases ha : Atoi req.param with
    | none => rfl
    | some n =>
      have h2 := hget n ha
      rw [h] at h2
      cases h2
  · intro ha
    simp [Handlers.Get, ha]
  · intro h
    cases ha : Atoi req.param with
    | none => rfl
    | some n =>
      have h2 := hdel n ha
      rw [h] at h2
      cases h2
  · intro ha
    simp [Handlers.Delete, ha]

/-- C20 at `GET /users/abc` and `DELETE /posts/12`. -/
theorem C20_bad_id_iff_param_not_integer_witness :
    userHandlers.GetUser (Repo.repository userResource
        (Store.storage RangeOrder.declared userResource
          (Pool.constant ⟨[], none⟩ (.ok 0)))).traced (Request.withParam "abc") ((), []) =
      (.wrote [⟨400, .text "bad id: abc"⟩], ((), []))
    ∧ (postHandlers.DeletePost (Repo.repository postResource
        (Store.storage RangeOrder.declared postResource
          (Pool.constant ⟨[], none⟩ (.ok 0)))).traced (Request.withParam "12") ((), [])).2.2 =
      [.Delete 12] :=
  ⟨(C20_bad_id_iff_param_not_integer userResource (Repo.repository userResource
      (Store.storage RangeOrder.declared userResource (Pool.constant ⟨[], none⟩ (.ok 0))))
      (Request.withParam "abc") ()).1.2 (by decide),
    (C20_bad_id_iff_param_not_integer postResource (Repo.repository postResource
      (Store.storage RangeOrder.declared postResource (Pool.constant ⟨[], none⟩ (.ok 0))))
      (Request.withParam "12") ()).2.2.2 12 (by decide)⟩

/-! ## The identifier in the statement -/

/-- The statement ends with the identifier clause, whatever the columns. -/
theorem sprintfQuery_ends (t : String) (fields values : List String) (id : Value) :
    ∃ head : String, sprintfQuery t fields values id = head ++ (") WHERE id = " ++ fmtF0 id ++ ";") := by
  unfold sprintfQuery
  split
  · exact ⟨"UPDATE " ++ t ++ " SET " ++ ",".intercalate fields ++ " = (" ++
      ",".intercalate values, by simp [String.append_assoc]⟩
  · exact ⟨"UPDATE " ++ t ++ " SET (" ++ ",".intercalate fields ++ ") = (" ++
      ",".intercalate values, by simp [String.append_assoc]⟩

/-- C23: at `Post{Id: 9007199254740993, Title: "x"}` (the identifier is `2^53 + 1`) the
compiled statement ends with `WHERE id = 9007199254740992;`: the identifier printed is the
`float64` nearest to the record's identifier, not the identifier. -/
theorem C23_identifier_above_2_53_is_rounded :
    UpdateQueryCompilation RangeOrder.declared "posts"
        (Post.toStruct ⟨9007199254740993, "x", "", 0⟩) Post.zero.toStruct =
      ("UPDATE posts SET title = ('x') WHERE id = 9007199254740992;", none)
    ∧ float64OfInt 9007199254740993 = 9007199254740992
    ∧ float64OfInt (-9007199254740993) = -9007199254740992
    ∧ float64OfInt 0 = 0 := by
  refine ⟨?_, ?_, ?_, ?_⟩ <;> rfl

/-- C26: the `no id specified` failure cannot come from the stores: for every user and
every post, whatever its `Id`, compiling against the zero record returns no error; for a
record with `Id` 0 (a request body without `id`) the statement ends with `WHERE id = 0;`,
and that statement is what the user and post stores send. -/
theorem C26_no_id_error_unreachable_from_stores (order : RangeOrder) :
    (∀ u : User, (UpdateQueryCompilation order "users" u.toStruct User.zero.toStruct).2 = none)
      ∧ (∀ p : Post, (UpdateQueryCompilation order "posts" p.toStruct Post.zero.toStruct).2 = none)
      ∧ (∀ (username password first_name last_name email : String) (is_active : Bool),
          ∃ head : String,
            (UpdateQueryCompilation order "users"
              (User.toStruct ⟨0, username, password, first_name, last_name, email, is_active⟩)
              User.zero.toStruct).1 = head ++ ") WHERE id = 0;")
      ∧ (∀ (title body : String) (user_id : Int),
          ∃ head : String,
            (UpdateQueryCompilation order "posts" (Post.toStruct ⟨0, title, body, user_id⟩)
              Post.zero.toStruct).1 = head ++ ") WHERE id = 0;")
      ∧ (∀ (σ : Type) (db : Pool σ Post) (title body : String) (user_id : Int) (s : σ),
          ∃ head : String,
            (PostsDB.Update order db.traced ⟨0, title, body, user_id⟩ (s, [])).2.2 =
              [⟨head ++ ") WHERE id = 0;", []⟩]) := by
  have hu : ∀ u : User, UpdateQueryCompilation order "users" u.toStruct User.zero.toStruct =
      (sprintfQuery "users" (columnList order u.toMap User.zero.toMap)
        (valueList order u.toMap User.zero.toMap) (.float64 (float64OfInt u.Id)), none) :=
    fun u => UpdateQueryCompilation_ok order "users" u.toStruct User.zero.toStruct
      (structToMap_user u) (structToMap_user User.zero) rfl
  have hp : ∀ p : Post, UpdateQueryCompilation order "posts" p.toStruct Post.zero.toStruct =
      (sprintfQuery "posts" (columnList order p.toMap Post.zero.toMap)
        (valueList order p.toMap Post.zero.toMap) (.float64 (float64OfInt p.Id)), none) :=
    fun p => UpdateQueryCompilation_ok order "posts" p.toStruct Post.zero.toStruct
      (structToMap_post p) (structToMap_post Post.zero) rfl
  have hz : ") WHERE id = " ++ fmtF0 (.float64 (float64OfInt 0)) ++ ";" = ") WHERE id = 0;" := rfl
  refine ⟨fun u => by rw [hu u], fun p => by rw [hp p], ?_, ?_, ?_⟩
  · intro username password first_name last_name email is_active
    rw [hu]
    obtain ⟨head, hh⟩ := sprintfQuery_ends "users"
      (columnList order (User.toMap ⟨0, username, password, first_name, last_name, email,
        is_active⟩) User.zero.toMap)
      (valueList order (User.toMap ⟨0, username, password, first_name, last_name, email,
        is_active⟩) User.zero.toMap) (.float64 (float64OfInt 0))
    exact ⟨head, by rw [← hz]; exact hh⟩
  · intro title body user_id
    rw [hp]
    obtain ⟨head, hh⟩ := sprintfQuery_ends "posts"
      (columnList order (Post.toMap ⟨0, title, body, user_id⟩) Post.zero.toMap)
      (valueList order (Post.toMap ⟨0, title, body, user_id⟩) Post.zero.toMap)
      (.float64 (float64OfInt 0))
    exact ⟨head, by rw [← hz]; exact hh⟩
  · intro σ db title body user_id s
    obtain ⟨head, hh⟩ := sprintfQuery_ends "posts"
      (columnList order (Post.toMap ⟨0, title, body, user_id⟩) Post.zero.toMap)
      (valueList order (Post.toMap ⟨0, title, body, user_id⟩) Post.zero.toMap)
      (.float64 (float64OfInt 0))
    refine ⟨head, ?_⟩
    rw [← hz, ← hh]
    exact Store.Update_traced_stmt order postResource db ⟨0, title, body, user_id⟩ s _
      (hp ⟨0, title, body, user_id⟩)

/-! ## Schema and demo data: the responses written -/

/-- C24: the handlers `InitSchema` and `AddDemoData`: when the statement fails, the
handler logs the error, writes the 500 response, and then writes the 200 response it
writes on success, so that the last write of the failure path is the 200 write of the
success path. -/
theorem C24_failure_path_ends_with_success_write {σ α : Type} (pool : Pool σ α) (s s1 : σ) :
    (∀ err : GoError, pool.Exec InitDBQuery [] s = (.error err, s1) →
        defaultHandlers.InitSchema pool s =
          ((.wrote [⟨500, .text "DB is not initialized"⟩, ⟨200, .text "DB Initialized"⟩],
            [⟨"info", "defaultHandlers.InitSchema"⟩,
             ⟨"error", "cannot init schema: " ++ err.Error⟩]), s1))
      ∧ (∀ n : Int, pool.Exec InitDBQuery [] s = (.ok n, s1) →
        defaultHandlers.InitSchema pool s =
          ((.wrote [⟨200, .text "DB Initialized"⟩], [⟨"info", "defaultHandlers.InitSchema"⟩]),
            s1))
      ∧ (∀ err : GoError, pool.Exec InitDemoQuery [] s = (.error err, s1) →
        defaultHandlers.AddDemoData pool s =
          ((.wrote [⟨500, .text "Demo data is not added"⟩, ⟨200, .text "Demo data is added"⟩],
            [⟨"info", "defaultHandlers.AddDemoData"⟩,
             ⟨"error", "cannot add demo data: " ++ err.Error⟩]), s1))
      ∧ (∀ n : Int, pool.Exec InitDemoQuery [] s = (.ok n, s1) →
        defaultHandlers.AddDemoData pool s =
          ((.wrote [⟨200, .text "Demo data is added"⟩],
            [⟨"info", "defaultHandlers.AddDemoData"⟩]), s1)) := by
  refine ⟨?_, ?_, ?_, ?_⟩
  · intro err h
    simp [defaultHandlers.InitSchema, InitSchema, h]
  · intro n h
    simp [defaultHandlers.InitSchema, InitSchema, h]
  · intro err h
    simp [defaultHandlers.AddDemoData, AddDemoData, h]
  · intro n h
    simp [defaultHandlers.AddDemoData, AddDemoData, h]

/-- C24 at a pool whose every statement fails with `connection refused`. -/
theorem C24_failure_path_ends_with_success_write_witness :
    defaultHandlers.InitSchema
        (Pool.constant (⟨[], none⟩ : Rows User) (.error (.leaf "connection refused"))) () =
      ((.wrote [⟨500, .text "DB is not initialized"⟩, ⟨200, .text "DB Initialized"⟩],
        [⟨"info", "defaultHandlers.InitSchema"⟩,
         ⟨"error", "cannot init schema: connection refused"⟩]), ()) :=
  (C24_failure_path_ends_with_success_write
    (Pool.constant (⟨[], none⟩ : Rows User) (.error (.leaf "connection refused"))) () ()).1
    (.leaf "connection refused") rfl

/-! ## Insert, select and delete on the database server -/

/-- Store `Create` on the server, when the row is built and no constraint rejects it. -/
theorem Store.Create_db {α : Type} (E : Engine α) (r : Resource α)
    (row : Int → List GoValue → Option α) (idOf : α → Int) (u x : α) (s : Db α)
    (hrow : row s.nextId (r.createArgs u) = some x) (hv : E.violation s.rows x = none) :
    Store.Create r (Db.pool E r row idOf) u s =
      ((s.nextId, none), ⟨s.rows ++ [x], s.nextId + 1, s.nullRows⟩) := by
  simp [Store.Create, Db.pool, hrow, hv]

/-- Store `Create` on the server returns no error only after inserting the row. -/
theorem Store.Create_db_ok {α : Type} (E : Engine α) (r : Resource α)
    (row : Int → List GoValue → Option α) (idOf : α → Int) (u : α) (s s1 : Db α) (n : Int)
    (h : Store.Create r (Db.pool E r row idOf) u s = ((n, none), s1)) :
    ∃ x, row s.nextId (r.createArgs u) = some x ∧ n = s.nextId ∧
      s1 = ⟨s.rows ++ [x], s.nextId + 1, s.nullRows⟩ := by
  simp only [Store.Create, Db.pool, if_true] at h
  cases hrow : row s.nextId (r.createArgs u) with
  | none => simp [hrow] at h
  | some x =>
    cases hv : E.violation s.rows x with
    | some err => simp [hrow, hv] at h
    | none =>
      simp only [hrow, hv] at h
      refine ⟨x, rfl, ?_, ?_⟩
      · have := congrArg (fun p => p.1.1) h
        exact this.symm
      · have := congrArg (fun p => p.2) h
        exact this.symm

/-- Store `Read` on the server when exactly one row has the id. -/
theorem Store.Read_db_one {α : Type} (E : Engine α) (r : Resource α)
    (row : Int → List GoValue → Option α) (idOf : α → Int) (id : Int) (x : α) (s : Db α)
    (h : s.rows.filter (fun y => decide (idOf y = id)) = [x])
    (hn : s.nullRows.filter (fun i => decide (i = id)) = []) :
    Store.Read r (Db.pool E r row idOf) id s = ((some x, none), s) := by
  simp [Store.Read, Db.pool, h, hn, scanLoop]

/-- Store `Read` on the server when no row has the id. -/
theorem Store.Read_db_none {α : Type} (E : Engine α) (r : Resource α)
    (row : Int → List GoValue → Option α) (idOf : α → Int) (id : Int) (s : Db α)
    (h : s.rows.filter (fun y => decide (idOf y = id)) = [])
    (hn : s.nullRows.filter (fun i => decide (i = id)) = []) :
    Store.Read r (Db.pool E r row idOf) id s = ((none, some (readError r ErrNotFound id)), s) := by
  simp [Store.Read, Db.pool, h, hn, scanLoop]

/-- Store `Delete` on the server: the rows with the id are removed and counted. -/
theorem Store.Delete_db {α : Type} (E : Engine α) (r : Resource α)
    (row : Int → List GoValue → Option α) (idOf : α → Int) (id : Int) (s : Db α) :
    Store.Delete r (Db.pool E r row idOf) id s =
      (if (((s.rows.filter (fun y => decide (idOf y = id))).length +
            (s.nullRows.filter (fun i => decide (i = id))).length : Nat) : Int) ≠ 1 then
          some (.leaf ("delete " ++ r.name ++ " error: " ++
            toString (((s.rows.filter (fun y => decide (idOf y = id))).length +
              (s.nullRows.filter (fun i => decide (i = id))).length : Nat) : Int) ++
            " rows affected"))
        else none,
       ⟨s.rows.filter (fun y => !decide (idOf y = id)), s.nextId,
         s.nullRows.filter (fun i => !decide (i = id))⟩) := by
  simp only [Store.Delete, Db.pool, if_true]
  split <;> rfl

/-- A row inserted at the next value of the sequence is the only row with that id. -/
theorem filter_inserted {α : Type} (idOf : α → Int) (s : Db α) (x : α) (hwf : s.wf idOf)
    (hx : idOf x = s.nextId) :
    (s.rows ++ [x]).filter (fun y => decide (idOf y = s.nextId)) = [x] := by
  have h1 : s.rows.filter (fun y => decide (idOf y = s.nextId)) = [] := by
    apply List.filter_eq_nil_iff.2
    intro y hy
    have := hwf.2.1 y hy
    simp only [decide_eq_true_eq]
    omega
  simp [List.filter_append, h1, hx]

/-- No row holding a NULL has the next value of the sequence as its id. -/
theorem filter_null_inserted {α : Type} (idOf : α → Int) (s : Db α) (hwf : s.wf idOf) :
    s.nullRows.filter (fun i => decide (i = s.nextId)) = [] := by
  apply List.filter_eq_nil_iff.2
  intro i hi
  have := hwf.2.2 i hi
  simp only [decide_eq_true_eq]
  omega

/-- Create then Read through a repository on the server: the record read is the row
inserted, and the record returned by Create carries its id. -/
theorem Repo.create_read_db {α : Type} (order : RangeOrder) (E : Engine α) (r : Resource α)
    (row : Int → List GoValue → Option α) (idOf : α → Int)
    (hrow : ∀ id args x, row id args = some x → idOf x = id)
    (s s1 : Db α) (hwf : s.wf idOf) (u y : α)
    (h : Repo.Create r (Store.storage order r (Db.pool E r row idOf)) u s =
      (.ret (some y) none, s1)) :
    ∃ x, row s.nextId (r.createArgs u) = some x ∧ y = r.withId u s.nextId ∧
      Repo.Read r (Store.storage order r (Db.pool E r row idOf)) s.nextId s1 =
        (.ret (some x) none, s1) := by
  cases hc : Store.Create r (Db.pool E r row idOf) u s with
  | mk res s2 =>
    obtain ⟨n, err⟩ := res
    have hrepo := Repo.Create_eq r (Store.storage order r (Db.pool E r row idOf)) u s s2 n err hc
    rw [h] at hrepo
    cases err with
    | some e => simp at hrepo
    | none =>
      simp only [Prod.mk.injEq, Outcome.ret.injEq, Option.some.injEq, and_true] at hrepo
      obtain ⟨hy, hs⟩ := hrepo
      subst hs
      obtain ⟨x, hx, hn, hs1⟩ := Store.Create_db_ok E r row idOf u s s1 n hc
      subst hn
      refine ⟨x, hx, hy, ?_⟩
      have hread : Store.Read r (Db.pool E r row idOf) s.nextId s1 = ((some x, none), s1) := by
        apply Store.Read_db_one
        · rw [hs1]
          exact filter_inserted idOf s x hwf (hrow _ _ _ hx)
        · rw [hs1]
          exact filter_null_inserted idOf s hwf
      simp [Repo.Read, Store.storage, hread]

theorem userRow_id (E : Engine User) (id : Int) (args : List GoValue) (x : User)
    (h : userRow E id args = some x) : x.Id = id := by
  unfold userRow at h
  split at h
  · cases h; rfl
  · cases h

theorem postRow_id (E : Engine Post) (id : Int) (args : List GoValue) (x : Post)
    (h : postRow E id args = some x) : x.Id = id := by
  unfold postRow at h
  split at h
  · cases h; rfl
  · cases h

theorem commentRow_id (E : Engine Comment) (id : Int) (args : List GoValue) (x : Comment)
    (h : commentRow E id args = some x) : x.Id = id := by
  unfold commentRow at h
  split at h
  · cases h; rfl
  · cases h

/-! ## Create then Read -/

/-- C21, as the code has it: on a table whose ids are distinct and below the sequence,
repository `Create` followed by `Read` of the returned id yields the submitted record
except for the id, which is the generated one, for a comment the date, which is the
server's `NOW()`, and for a user the password, which is read back as
`crypt(password, gen_salt('bf', 8))`, a 60-character hash, not as the text submitted. -/
theorem C21_create_read_round_trip (order : RangeOrder) :
    (∀ (E : Engine User) (s s1 : Db User) (u y : User), s.wf User.Id →
        Users.Create (Store.storage order userResource (usersDb E)) u s =
          (.ret (some y) none, s1) →
        y.Id = s.nextId
          ∧ Users.Read (Store.storage order userResource (usersDb E)) y.Id s1 =
            (.ret (some ⟨s.nextId, u.Username, E.crypt u.Password (E.gen_salt s.nextId),
              u.FirstName, u.LastName, u.Email, u.IsActive⟩) none, s1)
          ∧ (E.crypt u.Password (E.gen_salt s.nextId)).length = 60)
      ∧ (∀ (E : Engine Post) (s s1 : Db Post) (p y : Post), s.wf Post.Id →
        Posts.Create (Store.storage order postResource (postsDb E)) p s =
          (.ret (some y) none, s1) →
        y.Id = s.nextId
          ∧ Posts.Read (Store.storage order postResource (postsDb E)) y.Id s1 =
            (.ret (some ⟨s.nextId, p.Title, p.Body, p.UserId⟩) none, s1))
      ∧ (∀ (E : Engine Comment) (s s1 : Db Comment) (c y : Comment), s.wf Comment.Id →
        Comments.Create (Store.storage order commentResource (commentsDb E)) c s =
          (.ret (some y) none, s1) →
        y.Id = s.nextId
          ∧ Comments.Read (Store.storage order commentResource (commentsDb E)) y.Id s1 =
            (.ret (some ⟨s.nextId, .instant (E.now s.nextId), c.Body, c.UserId, c.PostId⟩)
              none, s1)) := by
  refine ⟨?_, ?_, ?_⟩
  · intro E s s1 u y hwf h
    obtain ⟨x, hx, hy, hr⟩ := Repo.create_read_db order E userResource (userRow E) User.Id
      (userRow_id E) s s1 hwf u y h
    have hx2 : x = ⟨s.nextId, u.Username, E.crypt u.Password (E.gen_salt s.nextId),
        u.FirstName, u.LastName, u.Email, u.IsActive⟩ := by
      have : userRow E s.nextId (userResource.createArgs u) = some ⟨s.nextId, u.Username,
          E.crypt u.Password (E.gen_salt s.nextId), u.FirstName, u.LastName, u.Email,
          u.IsActive⟩ := rfl
      rw [this] at hx
      exact (Option.some.inj hx).symm
    have hid : y.Id = s.nextId := by rw [hy]; rfl
    refine ⟨hid, ?_, E.crypt_length _ _⟩
    rw [hid, ← hx2]
    exact hr
  · intro E s s1 p y hwf h
    obtain ⟨x, hx, hy, hr⟩ := Repo.create_read_db order E postResource (postRow E) Post.Id
      (postRow_id E) s s1 hwf p y h
    have hx2 : x = ⟨s.nextId, p.Title, p.Body, p.UserId⟩ := by
      have : postRow E s.nextId (postResource.createArgs p) =
          some ⟨s.nextId, p.Title, p.Body, p.UserId⟩ := rfl
      rw [this] at hx
      exact (Option.some.inj hx).symm
    have hid : y.Id = s.nextId := by rw [hy]; rfl
    refine ⟨hid, ?_⟩
    rw [hid, ← hx2]
    exact hr
  · intro E s s1 c y hwf h
    obtain ⟨x, hx, hy, hr⟩ := Repo.create_read_db order E commentResource (commentRow E)
      Comment.Id (commentRow_id E) s s1 hwf c y h
    have hx2 : x = ⟨s.nextId, .instant (E.now s.nextId), c.Body, c.UserId, c.PostId⟩ := by
      have : commentRow E s.nextId (commentResource.createArgs c) =
          some ⟨s.nextId, .instant (E.now s.nextId), c.Body, c.UserId, c.PostId⟩ := rfl
      rw [this] at hx
      exact (Option.some.inj hx).symm
    have hid : y.Id = s.nextId := by rw [hy]; rfl
    refine ⟨hid, ?_⟩
    rw [hid, ← hx2]
    exact hr

/-- C21 at the post `Post{Title: "t", Body: "b", UserId: 2}` created in the empty table:
it is read back with id 1 and every other field as submitted. -/
theorem C21_create_read_round_trip_witness :
    Posts.Read (Store.storage RangeOrder.declared postResource (postsDb Engine.sample)) 1
        ⟨[⟨1, "t", "b", 2⟩], 2, []⟩ =
      (.ret (some ⟨1, "t", "b", 2⟩) none, ⟨[⟨1, "t", "b", 2⟩], 2, []⟩) :=
  ((C21_create_read_round_trip RangeOrder.declared).2.1 Engine.sample Db.empty
    ⟨[⟨1, "t", "b", 2⟩], 2, []⟩ ⟨0, "t", "b", 2⟩ ⟨1, "t", "b", 2⟩
    (by simp [Db.wf, Db.empty]) rfl).2

set_option maxRecDepth 100000 in
/-- C21 fails for the password: the user `User{Username: "alice", Password: "x"}` created
in the empty table is read back, by the id returned, with the hash as its password and not
`x`; and with no engine at all is `x` read back, a hash being 60 characters long. -/
theorem C21_password_not_read_back :
    (Users.Create (Store.storage RangeOrder.declared userResource (usersDb Engine.sample))
        ⟨0, "alice", "x", "", "", "", true⟩ Db.empty).1 =
      .ret (some ⟨1, "alice", "x", "", "", "", true⟩) none
    ∧ (Users.Read (Store.storage RangeOrder.declared userResource (usersDb Engine.sample)) 1
        (Users.Create (Store.storage RangeOrder.declared userResource (usersDb Engine.sample))
          ⟨0, "alice", "x", "", "", "", true⟩ Db.empty).2).1 =
      .ret (some ⟨1, "alice", "$2a$08$salt1x...............................................", "", "", "", true⟩) none
    ∧ ("$2a$08$salt1x..............................................." : String) ≠ "x"
    ∧ ¬ ∃ E : Engine User, E.crypt "x" (E.gen_salt 1) = "x" := by
  refine ⟨rfl, rfl, by decide, ?_⟩
  rintro ⟨E, hE⟩
  have h := E.crypt_length "x" (E.gen_salt 1)
  rw [hE] at h
  exact absurd h (by decide)

/-! ## The password on insert and on update -/

/-- The statement a store's `Create` sends: the insert, with the fields of the record as
bound parameters. -/
theorem Store.Create_traced_stmt {σ α : Type} (r : Resource α) (db : Pool σ α) (x : α) (s : σ) :
    (Store.Create r db.traced x (s, [])).2.2 = [⟨r.CreateSQL, r.createArgs x⟩] := by
  unfold Store.Create
  simp only [Pool.traced, List.nil_append]
  cases (db.QueryRow r.CreateSQL (r.createArgs x) s).1 <;> rfl

set_option maxRecDepth 100000 in
/-- C25: the user store treats the password differently on insert and on update. `Create`
binds it as the second parameter of `UserCreate`, whose value for the column is
`crypt($2, gen_salt('bf', 8))`, so the row stored holds the hash. For every user with a
non-empty password `p` the statement compiled and sent by `Update` has the column
`password`, and the literal at its place is `'p'`, the text submitted between quotes, with
no call of the hash function; when the password is the only field set the statement is
`UPDATE users SET password = ('p') WHERE id = <id>;`. -/
theorem C25_password_hashed_on_insert_only (order : RangeOrder) (E : Engine User) (u : User)
    (hp : u.Password ≠ "") :
    (∀ s : Db User,
        (UsersDB.Create (usersDb E).traced u (s, [])).2.2 =
          [⟨"\nINSERT INTO users(username, password, first_name, last_name, email, is_active)\nVALUES\n    ($1, crypt($2, gen_salt('bf', 8)), $3, $4, $5, $6)\nRETURNING id;\n",
            [.string u.Username, .string u.Password, .string u.FirstName, .string u.LastName,
              .string u.Email, .bool u.IsActive]⟩])
      ∧ (∀ s : Db User,
          E.violation s.rows ⟨s.nextId, u.Username, E.crypt u.Password (E.gen_salt s.nextId),
            u.FirstName, u.LastName, u.Email, u.IsActive⟩ = none →
          UsersDB.Create (usersDb E) u s =
            ((s.nextId, none),
              ⟨s.rows ++ [⟨s.nextId, u.Username, E.crypt u.Password (E.gen_salt s.nextId),
                u.FirstName, u.LastName, u.Email, u.IsActive⟩], s.nextId + 1, s.nullRows⟩))
      ∧ (∀ (σ : Type) (db : Pool σ User) (s : σ),
          (UsersDB.Update order db.traced u (s, [])).2.2 =
            [⟨sprintfQuery "users" (columnList order u.toMap User.zero.toMap)
              (valueList order u.toMap User.zero.toMap) (.float64 (float64OfInt u.Id)), []⟩])
      ∧ "password" ∈ columnList order u.toMap User.zero.toMap
      ∧ valueList order u.toMap User.zero.toMap =
          (columnList order u.toMap User.zero.toMap).map
            (fun c => "'" ++ vStr (JMap.get u.toMap c) ++ "'")
      ∧ "'" ++ vStr (JMap.get u.toMap "password") ++ "'" = "'" ++ u.Password ++ "'"
      ∧ UpdateQueryCompilation order "users"
          (User.toStruct ⟨u.Id, "", u.Password, "", "", "", false⟩) User.zero.toStruct =
        ("UPDATE users SET password = ('" ++ u.Password ++ "') WHERE id = " ++
          toString (float64OfInt u.Id) ++ ";", none) := by
  refine ⟨?_, ?_, ?_, ?_, ?_, ?_, ?_⟩
  · intro s
    exact Store.Create_traced_stmt userResource (usersDb E) u s
  · intro s hv
    exact Store.Create_db E userResource (userRow E) User.Id u _ s rfl hv
  · intro σ db s
    exact Store.Update_traced_stmt order userResource db u s _
      (UpdateQueryCompilation_ok order "users" u.toStruct User.zero.toStruct
        (structToMap_user u) (structToMap_user User.zero) rfl)
  · rw [mem_columnList order (user_toMap_nodup u)]
    simpa [User.toMap, User.zero, JMap.get, List.lookup] using hp
  · exact valueList_eq_map order (user_toMap_nodup u)
  · rfl
  · refine (UpdateQueryCompilation_single order "users" "password" (float64OfInt u.Id)
      (.string u.Password) (User.toStruct ⟨u.Id, "", u.Password, "", "", "", false⟩)
      User.zero.toStruct (User.toMap ⟨u.Id, "", u.Password, "", "", "", false⟩)
      (User.toMap User.zero) rfl rfl rfl (by decide) rfl ?_ ?_).1
    · simpa [User.toMap, User.zero, JMap.get, List.lookup] using hp
    · intro k1 v1 hid hk hl
      have hm := mem_of_lookup_eq_some hl
      simp [User.toMap] at hm
      rcases hm with ⟨h, _⟩ | ⟨h, hv⟩ | ⟨h, _⟩ | ⟨h, hv⟩ | ⟨h, hv⟩ | ⟨h, hv⟩ | ⟨h, hv⟩
      · exact absurd h hid
      · subst h; subst hv; rfl
      · exact absurd h hk
      · subst h; subst hv; rfl
      · subst h; subst hv; rfl
      · subst h; subst hv; rfl
      · subst h; subst hv; rfl

/-- C25 at user 3 submitted with the password `hunter2` only: the update statement carries
the password as it was typed. -/
theorem C25_password_hashed_on_insert_only_witness :
    UpdateQueryCompilation RangeOrder.declared "users"
        (User.toStruct ⟨3, "", "hunter2", "", "", "", false⟩) User.zero.toStruct =
      ("UPDATE users SET password = ('hunter2') WHERE id = 3;", none) :=
  (C25_password_hashed_on_insert_only RangeOrder.declared Engine.sample
    ⟨3, "", "hunter2", "", "", "", false⟩ (by decide)).2.2.2.2.2.2

/-! ## Two callers of repository `Delete` on the same id -/

/-- The two store calls of a task, made one after the other, are repository `Delete`. -/
theorem DeleteTask.step_step {σ α : Type} (r : Resource α) (st : Storage σ α) (id : Int)
    (s : σ) :
    DeleteTask.step r st id (DeleteTask.step r st id .start s).1
        (DeleteTask.step r st id .start s).2 =
      (.finished (Repo.Delete r st id s).1, (Repo.Delete r st id s).2) := by
  simp only [DeleteTask.step, Repo.Delete]
  cases hr : st.Read id s with
  | mk res s1 =>
    obtain ⟨val, err⟩ := res
    cases val <;> cases err <;> rfl

theorem DeleteTask.step_remaining {σ α : Type} (r : Resource α) (st : Storage σ α) (id : Int)
    (t : DeleteTask α) (s : σ) :
    (DeleteTask.step r st id t s).1.remaining ≤ t.remaining - 1 := by
  cases t with
  | start =>
    simp only [DeleteTask.step]
    cases hr : st.Read id s with
    | mk res s1 =>
      obtain ⟨val, err⟩ := res
      cases val <;> cases err <;> simp [DeleteTask.remaining]
  | readDone user => simp [DeleteTask.step, DeleteTask.remaining]
  | finished out => simp [DeleteTask.step, DeleteTask.remaining]

theorem runSchedule_remaining {σ α : Type} (r : Resource α) (st : Storage σ α) (id : Int)
    (sch : List Bool) (a b : DeleteTask α) (s : σ) :
    (runSchedule r st id sch (a, b, s)).1.remaining ≤ a.remaining - sch.count true
      ∧ (runSchedule r st id sch (a, b, s)).2.1.remaining ≤ b.remaining - sch.count false := by
  induction sch generalizing a b s with
  | nil => simp [runSchedule]
  | cons x rest ih =>
    cases x with
    | true =>
      have h := ih (DeleteTask.step r st id a s).1 b (DeleteTask.step r st id a s).2
      have hs := DeleteTask.step_remaining r st id a s
      simp only [runSchedule, List.count_cons_self, List.count_cons_of_ne (by decide : false ≠ true)]
      constructor
      · omega
      · exact h.2
    | false =>
      have h := ih a (DeleteTask.step r st id b s).1 (DeleteTask.step r st id b s).2
      have hs := DeleteTask.step_remaining r st id b s
      simp only [runSchedule, List.count_cons_self, List.count_cons_of_ne (by decide : true ≠ false)]
      constructor
      · exact h.1
      · omega

theorem DeleteTask.finished_of_remaining {α : Type} (t : DeleteTask α) (h : t.remaining = 0) :
    ∃ out, t = .finished out := by
  cases t with
  | start => simp [DeleteTask.remaining] at h
  | readDone user => simp [DeleteTask.remaining] at h
  | finished out => exact ⟨out, rfl⟩

/-- One store call of a caller that has not deleted yet, the record being in the table. -/
theorem DeleteTask.step_fresh {σ α : Type} (r : Resource α) (st : Storage σ α) (id : Int)
    (u : α) (present absent : σ → Prop)
    (F1 : ∀ s, present s → st.Read id s = ((some u, none), s))
    (F3 : ∀ s, present s → (st.Delete id s).1 = none ∧ absent (st.Delete id s).2)
    (t : DeleteTask α) (s : σ) (hp : present s) (ht : t.fresh u) :
    (present (DeleteTask.step r st id t s).2 ∧ (DeleteTask.step r st id t s).1.fresh u)
      ∨ (absent (DeleteTask.step r st id t s).2 ∧
          (DeleteTask.step r st id t s).1 = .finished (.ret (some u) none)) := by
  rcases ht with ht | ht
  · subst ht
    left
    simp only [DeleteTask.step, F1 s hp]
    exact ⟨hp, Or.inr rfl⟩
  · subst ht
    right
    have h := F3 s hp
    simp only [DeleteTask.step]
    exact ⟨h.2, by rw [h.1]⟩

/-- One store call of a caller once the record is gone. -/
theorem DeleteTask.step_loser {σ α : Type} (r : Resource α) (st : Storage σ α) (id : Int)
    (u : α) (enf erc : GoError) (absent : σ → Prop)
    (F2 : ∀ s, absent s → st.Read id s = ((none, some enf), s))
    (F4 : ∀ s, absent s → (st.Delete id s).1 = some erc ∧ absent (st.Delete id s).2)
    (t : DeleteTask α) (s : σ) (ha : absent s)
    (ht : t.loser u (.ret none (some (.wrap ("cannot read " ++ r.name ++ ": " ++ enf.Error) enf)))
      (.ret (some u) (some erc))) :
    absent (DeleteTask.step r st id t s).2
      ∧ (DeleteTask.step r st id t s).1.loser u
          (.ret none (some (.wrap ("cannot read " ++ r.name ++ ": " ++ enf.Error) enf)))
          (.ret (some u) (some erc)) := by
  rcases ht with ht | ht | ht | ht
  · subst ht
    simp only [DeleteTask.step, F2 s ha]
    exact ⟨ha, Or.inr (Or.inr (Or.inl rfl))⟩
  · subst ht
    have h := F4 s ha
    simp only [DeleteTask.step]
    exact ⟨h.2, Or.inr (Or.inr (Or.inr (by rw [h.1])))⟩
  · subst ht
    exact ⟨ha, Or.inr (Or.inr (Or.inl rfl))⟩
  · subst ht
    exact ⟨ha, Or.inr (Or.inr (Or.inr rfl))⟩

theorem DeleteTask.loser_of_fresh {α : Type} (u : α) (nf rc : Outcome α) (t : DeleteTask α)
    (h : t.fresh u) : t.loser u nf rc := by
  rcases h with h | h
  · exact Or.inl h
  · exact Or.inr (Or.inl h)

/-- Every schedule keeps the invariant of the two callers. -/
theorem runSchedule_inv {σ α : Type} (r : Resource α) (st : Storage σ α) (id : Int)
    (u : α) (enf erc : GoError) (present absent : σ → Prop)
    (F1 : ∀ s, present s → st.Read id s = ((some u, none), s))
    (F2 : ∀ s, absent s → st.Read id s = ((none, some enf), s))
    (F3 : ∀ s, present s → (st.Delete id s).1 = none ∧ absent (st.Delete id s).2)
    (F4 : ∀ s, absent s → (st.Delete id s).1 = some erc ∧ absent (st.Delete id s).2)
    (sch : List Bool) (c : DeleteTask α × DeleteTask α × σ)
    (hc : raceInv present absent u
      (.ret none (some (.wrap ("cannot read " ++ r.name ++ ": " ++ enf.Error) enf)))
      (.ret (some u) (some erc)) c) :
    raceInv present absent u
      (.ret none (some (.wrap ("cannot read " ++ r.name ++ ": " ++ enf.Error) enf)))
      (.ret (some u) (some erc)) (runSchedule r st id sch c) := by
  induction sch generalizing c with
  | nil => exact hc
  | cons x rest ih =>
    obtain ⟨a, b, s⟩ := c
    cases x with
    | true =>
      simp only [runSchedule]
      apply ih
      rcases hc with ⟨hp, ha, hb⟩ | ⟨hab, h⟩
      · rcases DeleteTask.step_fresh r st id u present absent F1 F3 a s hp ha with h | h
        · exact Or.inl ⟨h.1, h.2, hb⟩
        · exact Or.inr ⟨h.1, Or.inl ⟨h.2, DeleteTask.loser_of_fresh u _ _ b hb⟩⟩
      · rcases h with ⟨ha, hb⟩ | ⟨hb, ha⟩
        · simp only at ha
          subst ha
          exact Or.inr ⟨hab, Or.inl ⟨rfl, hb⟩⟩
        · have h := DeleteTask.step_loser r st id u enf erc absent F2 F4 a s hab ha
          exact Or.inr ⟨h.1, Or.inr ⟨hb, h.2⟩⟩
    | false =>
      simp only [runSchedule]
      apply ih
      rcases hc with ⟨hp, ha, hb⟩ | ⟨hab, h⟩
      · rcases DeleteTask.step_fresh r st id u present absent F1 F3 b s hp hb with h | h
        · exact Or.inl ⟨h.1, ha, h.2⟩
        · exact Or.inr ⟨h.1, Or.inr ⟨h.2, DeleteTask.loser_of_fresh u _ _ a ha⟩⟩
      · rcases h with ⟨ha, hb⟩ | ⟨hb, ha⟩
        · have h := DeleteTask.step_loser r st id u enf erc absent F2 F4 b s hab hb
          exact Or.inr ⟨h.1, Or.inl ⟨ha, h.2⟩⟩
        · simp only at hb
          subst hb
          exact Or.inr ⟨hab, Or.inr ⟨rfl, ha⟩⟩

theorem filter_removed {α : Type} (idOf : α → Int) (id : Int) (rows : List α) :
    (rows.filter (fun y => !decide (idOf y = id))).filter (fun y => decide (idOf y = id)) = [] := by
  apply List.filter_eq_nil_iff.2
  intro y hy
  have := (List.mem_filter.1 hy).2
  simpa using this

/-- Store `Delete` on the server when exactly one row has the id. -/
theorem Store.Delete_db_one {α : Type} (E : Engine α) (r : Resource α)
    (row : Int → List GoValue → Option α) (idOf : α → Int) (id : Int) (u : α) (s : Db α)
    (h : s.rows.filter (fun y => decide (idOf y = id)) = [u] ∧
      s.nullRows.filter (fun i => decide (i = id)) = []) :
    (Store.Delete r (Db.pool E r row idOf) id s).1 = none
      ∧ ((Store.Delete r (Db.pool E r row idOf) id s).2.rows.filter
            (fun y => decide (idOf y = id)) = [] ∧
          (Store.Delete r (Db.pool E r row idOf) id s).2.nullRows.filter
            (fun i => decide (i = id)) = []) := by
  rw [Store.Delete_db, h.1, h.2]
  exact ⟨by simp, filter_removed idOf id s.rows, filter_removed (fun i => i) id s.nullRows⟩

/-- Store `Delete` on the server when no row has the id. -/
theorem Store.Delete_db_none {α : Type} (E : Engine α) (r : Resource α)
    (row : Int → List GoValue → Option α) (idOf : α → Int) (id : Int) (s : Db α)
    (h : s.rows.filter (fun y => decide (idOf y = id)) = [] ∧
      s.nullRows.filter (fun i => decide (i = id)) = []) :
    (Store.Delete r (Db.pool E r row idOf) id s).1 =
        some (.leaf ("delete " ++ r.name ++ " error: " ++ toString (0 : Int) ++ " rows affected"))
      ∧ ((Store.Delete r (Db.pool E r row idOf) id s).2.rows.filter
            (fun y => decide (idOf y = id)) = [] ∧
          (Store.Delete r (Db.pool E r row idOf) id s).2.nullRows.filter
            (fun i => decide (i = id)) = []) := by
  rw [Store.Delete_db, h.1, h.2]
  exact ⟨by simp, filter_removed idOf id s.rows, filter_removed (fun i => i) id s.nullRows⟩

/-- C22, as the code has it: two callers of repository `Delete` for the same id, one row
of the table having that id and holding no NULL, their store calls interleaved in any order
(each store call being one statement): once each caller has been given its two turns, both
have returned, exactly one of them with the record and a nil error, the other with the
not-found error of the read step or with the row-count error `... 0 rows affected` of the
delete step, and the row is gone. The two store calls of a caller, run without
interruption, are repository `Delete`. -/
theorem C22_two_deletes_exactly_one_succeeds {α : Type} (order : RangeOrder) (E : Engine α)
    (r : Resource α) (row : Int → List GoValue → Option α) (idOf : α → Int) (id : Int) (u : α)
    (s : Db α) (sch : List Bool)
    (hpresent : s.rows.filter (fun y => decide (idOf y = id)) = [u])
    (hnull : s.nullRows.filter (fun i => decide (i = id)) = [])
    (h1 : 2 ≤ sch.count true) (h2 : 2 ≤ sch.count false) :
    (∃ (o1 o2 : Outcome α) (s1 : Db α),
        runSchedule r (Store.storage order r (Db.pool E r row idOf)) id sch (.start, .start, s) =
          (.finished o1, .finished o2, s1)
        ∧ ((o1 = .ret (some u) none ∧
              (o2 = .ret none (some (.wrap ("cannot read " ++ r.name ++ ": " ++
                    (readError r ErrNotFound id).Error) (readError r ErrNotFound id)))
                ∨ o2 = .ret (some u) (some (.leaf ("delete " ++ r.name ++ " error: " ++
                    toString (0 : Int) ++ " rows affected")))))
            ∨ (o2 = .ret (some u) none ∧
              (o1 = .ret none (some (.wrap ("cannot read " ++ r.name ++ ": " ++
                    (readError r ErrNotFound id).Error) (readError r ErrNotFound id)))
                ∨ o1 = .ret (some u) (some (.leaf ("delete " ++ r.name ++ " error: " ++
                    toString (0 : Int) ++ " rows affected"))))))
        ∧ s1.rows.filter (fun y => decide (idOf y = id)) = []
        ∧ s1.nullRows.filter (fun i => decide (i = id)) = [])
      ∧ ∀ s0 : Db α,
          DeleteTask.step r (Store.storage order r (Db.pool E r row idOf)) id
              (DeleteTask.step r (Store.storage order r (Db.pool E r row idOf)) id .start s0).1
              (DeleteTask.step r (Store.storage order r (Db.pool E r row idOf)) id .start s0).2 =
            (.finished (Repo.Delete r (Store.storage order r (Db.pool E r row idOf)) id s0).1,
              (Repo.Delete r (Store.storage order r (Db.pool E r row idOf)) id s0).2) := by
  refine ⟨?_, fun s0 => DeleteTask.step_step r _ id s0⟩
  have hinv := runSchedule_inv r (Store.storage order r (Db.pool E r row idOf)) id u
    (readError r ErrNotFound id)
    (.leaf ("delete " ++ r.name ++ " error: " ++ toString (0 : Int) ++ " rows affected"))
    (fun t : Db α => t.rows.filter (fun y => decide (idOf y = id)) = [u] ∧
      t.nullRows.filter (fun i => decide (i = id)) = [])
    (fun t : Db α => t.rows.filter (fun y => decide (idOf y = id)) = [] ∧
      t.nullRows.filter (fun i => decide (i = id)) = [])
    (fun t ht => Store.Read_db_one E r row idOf id u t ht.1 ht.2)
    (fun t ht => Store.Read_db_none E r row idOf id t ht.1 ht.2)
    (fun t ht => Store.Delete_db_one E r row idOf id u t ht)
    (fun t ht => Store.Delete_db_none E r row idOf id t ht)
    sch (.start, .start, s) (Or.inl ⟨⟨hpresent, hnull⟩, Or.inl rfl, Or.inl rfl⟩)
  have hrem := runSchedule_remaining r (Store.storage order r (Db.pool E r row idOf)) id sch
    .start .start s
  generalize runSchedule r (Store.storage order r (Db.pool E r row idOf)) id sch
    (.start, .start, s) = c at hinv hrem
  obtain ⟨a, b, s1⟩ := c
  have hra : a.remaining ≤ 2 - sch.count true := hrem.1
  have hrb : b.remaining ≤ 2 - sch.count false := hrem.2
  obtain ⟨o1, ha⟩ := DeleteTask.finished_of_remaining a (by omega)
  obtain ⟨o2, hb⟩ := DeleteTask.finished_of_remaining b (by omega)
  subst ha
  subst hb
  refine ⟨o1, o2, s1, rfl, ?_⟩
  rcases hinv with ⟨_, hf, _⟩ | ⟨hab, h⟩
  · rcases hf with hf | hf <;> cases hf
  · refine ⟨?_, hab⟩
    rcases h with ⟨ha, hb⟩ | ⟨hb, ha⟩
    · left
      refine ⟨DeleteTask.finished.inj ha, ?_⟩
      rcases hb with hb | hb | hb | hb
      · cases hb
      · cases hb
      · exact Or.inl (DeleteTask.finished.inj hb)
      · exact Or.inr (DeleteTask.finished.inj hb)
    · right
      refine ⟨DeleteTask.finished.inj hb, ?_⟩
      rcases ha with ha | ha | ha | ha
      · cases ha
      · cases ha
      · exact Or.inl (DeleteTask.finished.inj ha)
      · exact Or.inr (DeleteTask.finished.inj ha)

/-- C22 at user 7 and the schedule read, read, delete, delete: the first caller gets the
record, the second the row-count error. -/
theorem C22_two_deletes_exactly_one_succeeds_witness :
    ∃ (o1 o2 : Outcome User) (s1 : Db User),
      runSchedule userResource
          (Store.storage RangeOrder.declared userResource (usersDb Engine.sample)) 7
          [true, false, true, false]
          (.start, .start, ⟨[⟨7, "ann", "pw", "", "", "", true⟩], 8, []⟩) =
        (.finished o1, .finished o2, s1)
      ∧ ((o1 = .ret (some ⟨7, "ann", "pw", "", "", "", true⟩) none ∧
            (o2 = .ret none (some (.wrap ("cannot read " ++ userResource.name ++ ": " ++
                  (readError userResource ErrNotFound 7).Error)
                  (readError userResource ErrNotFound 7)))
              ∨ o2 = .ret (some ⟨7, "ann", "pw", "", "", "", true⟩)
                  (some (.leaf ("delete " ++ userResource.name ++ " error: " ++
                    toString (0 : Int) ++ " rows affected")))))
          ∨ (o2 = .ret (some ⟨7, "ann", "pw", "", "", "", true⟩) none ∧
            (o1 = .ret none (some (.wrap ("cannot read " ++ userResource.name ++ ": " ++
                  (readError userResource ErrNotFound 7).Error)
                  (readError userResource ErrNotFound 7)))
              ∨ o1 = .ret (some ⟨7, "ann", "pw", "", "", "", true⟩)
                  (some (.leaf ("delete " ++ userResource.name ++ " error: " ++
                    toString (0 : Int) ++ " rows affected"))))))
      ∧ s1.rows.filter (fun y => decide (User.Id y = 7)) = []
      ∧ s1.nullRows.filter (fun i => decide (i = 7)) = [] :=
  (C22_two_deletes_exactly_one_succeeds RangeOrder.declared Engine.sample userResource
    (userRow Engine.sample) User.Id 7 ⟨7, "ann", "pw", "", "", "", true⟩
    ⟨[⟨7, "ann", "pw", "", "", "", true⟩], 8, []⟩ [true, false, true, false] (by decide)
    (by decide) (by decide) (by decide)).1

/-! ## Counterexamples -/

/-- C8 fails for the statement as text: the user
`User{Id: 4, Username: "bob'), is_active = ('false", IsActive: false}` has `IsActive` at its
zero value and `is_active` is not in the compiled column list, yet the statement the user
store sends is `UPDATE users SET username = ('bob'), is_active = ('false') WHERE id = 4;`,
which sets `is_active` to false. -/
theorem C8_pasted_text_sets_zero_value :
    (UsersDB.Update RangeOrder.declared (Pool.constant ⟨[], none⟩ (.ok 1)).traced
        ⟨4, "bob'), is_active = ('false", "", "", "", "", false⟩ ((), [])).2.2 =
      [⟨"UPDATE users SET username = ('bob'), is_active = ('false') WHERE id = 4;", []⟩]
    ∧ columnList RangeOrder.declared
        (User.toMap ⟨4, "bob'), is_active = ('false", "", "", "", "", false⟩)
        User.zero.toMap = ["username"]
    ∧ (⟨4, "bob'), is_active = ('false", "", "", "", "", false⟩ : User).IsActive = false
    ∧ "UPDATE users SET username = ('bob'), is_active = ('false') WHERE id = 4;" =
        "UPDATE users SET username = ('bob'), " ++ "is_active = ('false')" ++ " WHERE id = 4;" := by
  refine ⟨rfl, rfl, rfl, by decide⟩

/-- C22 fails at an existing row that holds a NULL: for the post 7 whose `user_id` is NULL
(its user was deleted), with the schedule read, read, delete, delete, both callers of
repository `Delete` return a nil record and the scan error of the read step, wrapped, none
succeeds, and the row is still in the table. -/
theorem C22_both_callers_fail_on_null_row :
    runSchedule postResource
        (Store.storage RangeOrder.declared postResource (postsDb Engine.sample)) 7
        [true, false, true, false] (.start, .start, ⟨[], 8, [7]⟩) =
      (.finished (.ret none (some (.wrap
          ("cannot read post: " ++ (Engine.sample : Engine Post).scanNull.Error)
          (Engine.sample : Engine Post).scanNull))),
        .finished (.ret none (some (.wrap
          ("cannot read post: " ++ (Engine.sample : Engine Post).scanNull.Error)
          (Engine.sample : Engine Post).scanNull))),
        ⟨[], 8, [7]⟩)
    ∧ Posts.Delete (Store.storage RangeOrder.declared postResource (postsDb Engine.sample)) 7
        ⟨[], 8, [7]⟩ =
      (.ret none (some (.wrap
          ("cannot read post: " ++ (Engine.sample : Engine Post).scanNull.Error)
          (Engine.sample : Engine Post).scanNull)), ⟨[], 8, [7]⟩) := by
  refine ⟨rfl, rfl⟩

end SimpleBlog
